import Mathlib

/-!
# Engine/MapEngine/Main.js : status synchronisation handlers

A shallow embedding of the packet handlers of `src/Engine/MapEngine/Main.js`
(`onParameterChange`, `onStatusParameterChange`, `onGlobalAnnounce`, `onRank`)
together with the properties of them that the specification states.

Modelling conventions.

* A decoded packet is a record; a field that the packet does not own is
  `none` (`pkt.hasOwnProperty('f')` is `pkt.f.isSome`, and reading an absent
  field gives `undefined`, here `none`).
* Numbers carried by packets and kept in the session are integers (`Int`).
* The handlers mutate `Session` and the `BasicInfo` widget and call
  collaborators; here a handler is a function from the state before to the
  state after together with the list of collaborator calls, in program order.
* `Date.now()` is read at four places of `onParameterChange`; the readings
  are an input of the handler, one for each place (`Clock`), so that the
  clock may advance between the cooldown test and the stamps.
* The modules `DB/Status/StatusProperty`, `DB/Pets/PetMessageConst` and
  `DB/DBManager` are not part of these sources; the status code table and the
  two `DB` look-ups are parameters of the handlers.
-/

namespace MapEngine

/-! ## Data model -/

/-- The decoded status packets hooked to `onParameterChange`
(`PAR_CHANGE`, `LONGPAR_CHANGE`, `LONGPAR_CHANGE2`, `STATUS_CHANGE`,
`NOTIFY_CARTITEM_COUNTINFO`, `COUPLESTATUS`): the fields the handler reads. -/
structure StatusPacket where
  varID : Option Int := none
  statusType : Option Int := none
  statusID : Option Int := none
  amount : Option Int := none
  count : Option Int := none
  value : Option Int := none
  defaultStatus : Option Int := none
  plusStatus : Option Int := none
  deriving DecidableEq, Repr

/-- The constants of `DB/Status/StatusProperty` that label a `case` of the
`switch` of `onParameterChange`. The module itself is not among the sources,
so the table is a parameter. -/
structure StatusProperty where
  SPEED : Int
  EXP : Int
  JOBEXP : Int
  VIRTUE : Int
  HONOR : Int
  HP : Int
  MAXHP : Int
  SP : Int
  MAXSP : Int
  POINT : Int
  CLEVEL : Int
  SKPOINT : Int
  STR : Int
  AGI : Int
  VIT : Int
  INT : Int
  DEX : Int
  LUK : Int
  MONEY : Int
  MAXEXP : Int
  MAXJOBEXP : Int
  WEIGHT : Int
  MAXWEIGHT : Int
  STANDARD_STR : Int
  STANDARD_AGI : Int
  STANDARD_VIT : Int
  STANDARD_INT : Int
  STANDARD_DEX : Int
  STANDARD_LUK : Int
  ATTPOWER : Int
  REFININGPOWER : Int
  MAX_MATTPOWER : Int
  MIN_MATTPOWER : Int
  ITEMDEFPOWER : Int
  PLUSDEFPOWER : Int
  MDEFPOWER : Int
  PLUSMDEFPOWER : Int
  HITSUCCESSVALUE : Int
  AVOIDSUCCESSVALUE : Int
  PLUSAVOIDSUCCESSVALUE : Int
  CRITICALSUCCESSVALUE : Int
  ASPD : Int
  JOBLEVEL : Int
  VAR_SP_POW : Int
  VAR_SP_STA : Int
  VAR_SP_WIS : Int
  VAR_SP_SPL : Int
  VAR_SP_CON : Int
  VAR_SP_CRT : Int
  VAR_SP_PATK : Int
  VAR_SP_SMATK : Int
  VAR_SP_RES : Int
  VAR_SP_MRES : Int
  VAR_SP_HPLUS : Int
  VAR_SP_CRATE : Int
  VAR_SP_TRAITPOINT : Int
  VAR_SP_AP : Int
  VAR_SP_MAXAP : Int
  VAR_SP_UPOW : Int
  VAR_SP_USTA : Int
  VAR_SP_UWIS : Int
  VAR_SP_USPL : Int
  VAR_SP_UCON : Int
  VAR_SP_UCRT : Int

/-- The three `PetMessageConst` lines used by `onParameterChange`. -/
inductive PetMessage
  | PM_DANGER
  | PM_DEAD
  | PM_LEVELUP
  deriving DecidableEq, Repr

/-- The two look-ups of `DB/DBManager` used by the pet talk blocks. -/
structure DB where
  getPetHungryState : Int → Int
  getPetTalkNumber : Int → PetMessage → Int → Int

/-- The object `Session.Entity.life`. -/
structure Life where
  hp : Int
  hp_max : Int
  sp : Int
  sp_max : Int
  deriving DecidableEq, Repr

/-- The object `Session.pet`; `lastTalk` is `none` while the property is unset. -/
structure Pet where
  friendly : Int
  lastTalk : Option Int
  oldHungry : Int
  job : Int
  deriving DecidableEq, Repr

/-- The fields of `BasicInfo.getUI()` that `onParameterChange` reads and writes. -/
structure BasicInfoUI where
  base_exp : Int
  base_exp_next : Int
  job_exp : Int
  job_exp_next : Int
  weight : Int
  weight_max : Int
  deriving DecidableEq, Repr

/-- The mutable state `onParameterChange` works on: the parts of `Session`
(`Session.Entity.walk.speed`, `Session.Entity.life`, `Session.Entity.clevel`,
`Session.hasParty`, `Session.AID`, `Session.pet`) and of the `BasicInfo` widget. -/
structure World where
  walkSpeed : Int
  life : Life
  clevel : Int
  hasParty : Bool
  AID : Int
  pet : Pet
  basicInfo : BasicInfoUI
  deriving DecidableEq, Repr

/-- The decoded announce packets hooked to `onGlobalAnnounce` (`BROADCAST`,
`BROADCAST2`); `fontColor` is a 32-bit unsigned field of `BROADCAST2` and is
absent from `BROADCAST`. -/
structure AnnouncePacket where
  fontColor : Option Nat := none
  msg : String
  deriving DecidableEq, Repr

/-- The constant of `ChatBox.TYPE` used by `onGlobalAnnounce`. -/
inductive ChatBoxType
  | ANNOUNCE
  deriving DecidableEq, Repr

/-- The constants of `ChatBox.FILTER` used with announce lines. -/
inductive ChatBoxFilter
  | PUBLIC_CHAT
  | PUBLIC_LOG
  deriving DecidableEq, Repr

/-- A collaborator call made by a handler. -/
inductive Effect
  /-- Call `Session.Entity.life.update()`. -/
  | lifeUpdate
  /-- Call `BasicInfo.getUI().update(key, args...)`. -/
  | basicInfoUpdate (key : String) (args : List Int)
  /-- Call `WinStats.update(key, value)`; `none` is `undefined`. -/
  | winStatsUpdate (key : String) (value : Option Int)
  /-- Call `PartyUI.updateMemberLife(AID, life.canvas, hp, hp_max)`. -/
  | partyUpdateMemberLife (aid : Int) (hp : Int) (hp_max : Int)
  /-- Call `Session.Entity.aura.load(EffectManager)`. -/
  | auraLoad
  /-- Call `Equipment.onLevelUp()`. -/
  | equipmentOnLevelUp
  /-- Call `ChangeCart.onLevelUp(amount)`. -/
  | changeCartOnLevelUp (level : Int)
  /-- Call `SkillList.getUI().setPoints(amount)`. -/
  | skillListSetPoints (points : Int)
  /-- Call `SkillList.getUI().onLevelUp()`. -/
  | skillListOnLevelUp
  /-- Call `Network.sendPacket` with a `PACKET.CZ.PET_ACT` whose `data` is
  `DB.getPetTalkNumber(job, line, hunger)`; `line` records the message line
  the data was looked up for. -/
  | sendPetAct (line : PetMessage) (data : Int)
  /-- Call `console.log('Main::onParameterChange() - Unsupported type', pkt)`. -/
  | consoleLog (pkt : StatusPacket)
  /-- Call `ChatBox.addText(text, type, filter, color)`; `none` is an omitted colour. -/
  | chatBoxAddText (text : String) (type : ChatBoxType) (filter : ChatBoxFilter)
      (color : Option String)
  /-- Call `Announce.append()`. -/
  | announceAppend
  /-- Call `Announce.set(text, color)`. -/
  | announceSet (text : String) (color : String)
  /-- Call `WinStats.update(key, dividend / divisor)`; the quotient of the
  two numbers is left as it is written, it need not be an integer. -/
  | winStatsUpdateQuotient (key : String) (dividend : Int) (divisor : Int)
  deriving DecidableEq, Repr

/-- The readings of `Date.now()` during one call of `onParameterChange`, one
for each place of the handler that reads the clock. Each place is reached at
most once per call; within `case StatusProperty.HP` they are reached in the
order `test`, `dangerStamp`, `deadStamp`. -/
structure Clock where
  /-- Reading of line 254, compared with `lastTalk` in the cooldown test. -/
  test : Int
  /-- Reading of line 261, stored in `lastTalk` once the DANGER line is sent. -/
  dangerStamp : Int
  /-- Reading of line 274, stored in `lastTalk` once the DEAD line is sent. -/
  deadStamp : Int
  /-- Reading of line 331, stored in `lastTalk` once the LEVELUP line is sent. -/
  levelStamp : Int
  deriving DecidableEq, Repr

/-! ## `onParameterChange` -/

/-- Lines 192-203: the attribute code of a status packet. -/
def resolveType (pkt : StatusPacket) : Int :=
  if pkt.varID.isSome then pkt.varID.getD 0
  else if pkt.statusType.isSome then pkt.statusType.getD 0
  else if pkt.statusID.isSome then pkt.statusID.getD 0
  else -1

/-- Lines 190 and 205-213: the amount of a status packet. -/
def resolveAmount (pkt : StatusPacket) : Int :=
  if pkt.amount.isSome then pkt.amount.getD 0
  else if pkt.count.isSome then pkt.count.getD 0
  else if pkt.value.isSome then pkt.value.getD 0
  else 0

/-- The `case` clauses of the `switch` of `onParameterChange`. -/
inductive Case
  | SPEED | EXP | JOBEXP | VIRTUE | HONOR | HP | MAXHP | SP | MAXSP | POINT
  | CLEVEL | SKPOINT | STR | AGI | VIT | INT | DEX | LUK | MONEY | MAXEXP
  | MAXJOBEXP | WEIGHT | MAXWEIGHT
  | STANDARD_STR | STANDARD_AGI | STANDARD_VIT | STANDARD_INT | STANDARD_DEX
  | STANDARD_LUK | ATTPOWER | REFININGPOWER | MAX_MATTPOWER | MIN_MATTPOWER
  | ITEMDEFPOWER | PLUSDEFPOWER | MDEFPOWER | PLUSMDEFPOWER | HITSUCCESSVALUE
  | AVOIDSUCCESSVALUE | PLUSAVOIDSUCCESSVALUE | CRITICALSUCCESSVALUE | ASPD
  | JOBLEVEL
  | VAR_SP_POW | VAR_SP_STA | VAR_SP_WIS | VAR_SP_SPL | VAR_SP_CON | VAR_SP_CRT
  | VAR_SP_PATK | VAR_SP_SMATK | VAR_SP_RES | VAR_SP_MRES | VAR_SP_HPLUS
  | VAR_SP_CRATE | VAR_SP_TRAITPOINT | VAR_SP_AP | VAR_SP_MAXAP
  | VAR_SP_UPOW | VAR_SP_USTA | VAR_SP_UWIS | VAR_SP_USPL | VAR_SP_UCON
  | VAR_SP_UCRT
  deriving DecidableEq, Repr

/-- The labels of the `switch` (lines 215-564), in source order. -/
def caseLabels (sp : StatusProperty) : List (Int × Case) :=
  [ (sp.SPEED, .SPEED), (sp.EXP, .EXP), (sp.JOBEXP, .JOBEXP),
    (sp.VIRTUE, .VIRTUE), (sp.HONOR, .HONOR), (sp.HP, .HP), (sp.MAXHP, .MAXHP),
    (sp.SP, .SP), (sp.MAXSP, .MAXSP), (sp.POINT, .POINT), (sp.CLEVEL, .CLEVEL),
    (sp.SKPOINT, .SKPOINT), (sp.STR, .STR), (sp.AGI, .AGI), (sp.VIT, .VIT),
    (sp.INT, .INT), (sp.DEX, .DEX), (sp.LUK, .LUK), (sp.MONEY, .MONEY),
    (sp.MAXEXP, .MAXEXP), (sp.MAXJOBEXP, .MAXJOBEXP), (sp.WEIGHT, .WEIGHT),
    (sp.MAXWEIGHT, .MAXWEIGHT),
    (sp.STANDARD_STR, .STANDARD_STR), (sp.STANDARD_AGI, .STANDARD_AGI),
    (sp.STANDARD_VIT, .STANDARD_VIT), (sp.STANDARD_INT, .STANDARD_INT),
    (sp.STANDARD_DEX, .STANDARD_DEX), (sp.STANDARD_LUK, .STANDARD_LUK),
    (sp.ATTPOWER, .ATTPOWER), (sp.REFININGPOWER, .REFININGPOWER),
    (sp.MAX_MATTPOWER, .MAX_MATTPOWER), (sp.MIN_MATTPOWER, .MIN_MATTPOWER),
    (sp.ITEMDEFPOWER, .ITEMDEFPOWER), (sp.PLUSDEFPOWER, .PLUSDEFPOWER),
    (sp.MDEFPOWER, .MDEFPOWER), (sp.PLUSMDEFPOWER, .PLUSMDEFPOWER),
    (sp.HITSUCCESSVALUE, .HITSUCCESSVALUE),
    (sp.AVOIDSUCCESSVALUE, .AVOIDSUCCESSVALUE),
    (sp.PLUSAVOIDSUCCESSVALUE, .PLUSAVOIDSUCCESSVALUE),
    (sp.CRITICALSUCCESSVALUE, .CRITICALSUCCESSVALUE), (sp.ASPD, .ASPD),
    (sp.JOBLEVEL, .JOBLEVEL),
    (sp.VAR_SP_POW, .VAR_SP_POW), (sp.VAR_SP_STA, .VAR_SP_STA),
    (sp.VAR_SP_WIS, .VAR_SP_WIS), (sp.VAR_SP_SPL, .VAR_SP_SPL),
    (sp.VAR_SP_CON, .VAR_SP_CON), (sp.VAR_SP_CRT, .VAR_SP_CRT),
    (sp.VAR_SP_PATK, .VAR_SP_PATK), (sp.VAR_SP_SMATK, .VAR_SP_SMATK),
    (sp.VAR_SP_RES, .VAR_SP_RES), (sp.VAR_SP_MRES, .VAR_SP_MRES),
    (sp.VAR_SP_HPLUS, .VAR_SP_HPLUS), (sp.VAR_SP_CRATE, .VAR_SP_CRATE),
    (sp.VAR_SP_TRAITPOINT, .VAR_SP_TRAITPOINT), (sp.VAR_SP_AP, .VAR_SP_AP),
    (sp.VAR_SP_MAXAP, .VAR_SP_MAXAP),
    (sp.VAR_SP_UPOW, .VAR_SP_UPOW), (sp.VAR_SP_USTA, .VAR_SP_USTA),
    (sp.VAR_SP_UWIS, .VAR_SP_UWIS), (sp.VAR_SP_USPL, .VAR_SP_USPL),
    (sp.VAR_SP_UCON, .VAR_SP_UCON), (sp.VAR_SP_UCRT, .VAR_SP_UCRT) ]

/-- The values of the `case` labels, in source order. -/
def caseCodes (sp : StatusProperty) : List Int :=
  (caseLabels sp).map Prod.fst

/-- Selection of the clause of `switch (type)`: the first clause whose label
is strictly equal to `type`; `none` is the `default` clause. -/
def switchCase (sp : StatusProperty) (type : Int) : Option Case :=
  (caseLabels sp).lookup type

/-- The pet talk block (lines 255-261, 268-274 and 325-331): look the line up,
send it in a `PACKET.CZ.PET_ACT` and store in `Session.pet.lastTalk` the
reading `stamp` of the `Date.now()` that follows the send. -/
def petTalk (db : DB) (stamp : Int) (line : PetMessage) (w : World) : World × List Effect :=
  let hunger := db.getPetHungryState w.pet.oldHungry
  let talk := db.getPetTalkNumber w.pet.job line hunger
  ({ w with pet := { w.pet with lastTalk := some stamp } }, [Effect.sendPetAct line talk])

/-- Lines 251-263, the `//Danger` block. `hp <= 25/100*hp_max` compares the
integer `hp` with a quarter of the integer `hp_max`, which is `4*hp <= hp_max`;
`(lastTalk || 0)` is `0` when `lastTalk` is unset. The test compares with the
reading of line 254, the stamp is the reading of line 261. -/
def dangerCheck (db : DB) (clock : Clock) (w : World) : World × List Effect :=
  if 4 * w.life.hp ≤ w.life.hp_max then
    if w.pet.friendly > 900 ∧ w.pet.lastTalk.getD 0 + 10000 < clock.test then
      petTalk db clock.dangerStamp PetMessage.PM_DANGER w
    else (w, [])
  else (w, [])

/-- Lines 264-277, the `//Died` block. -/
def diedCheck (db : DB) (clock : Clock) (w : World) : World × List Effect :=
  if w.life.hp ≤ 1 then
    if w.pet.friendly > 900 then
      petTalk db clock.deadStamp PetMessage.PM_DEAD w
    else (w, [])
  else (w, [])

/-- Lines 245-249 and 285-289: the 'hp' display and, in a party, the roster
update, both with the values now in `Session.Entity.life`. -/
def showLife (w : World) : List Effect :=
  Effect.basicInfoUpdate "hp" [w.life.hp, w.life.hp_max] ::
    (if w.hasParty then [Effect.partyUpdateMemberLife w.AID w.life.hp w.life.hp_max] else [])

/-- Lines 240-278, `case StatusProperty.HP`. -/
def caseHP (db : DB) (clock : Clock) (amount : Int) (w : World) : World × List Effect :=
  let w1 : World := { w with life := { w.life with hp := amount } }
  let shown := if w1.life.hp_max > -1 then showLife w1 else []
  let d := dangerCheck db clock w1
  let k := diedCheck db clock d.1
  (k.1, Effect.lifeUpdate :: (shown ++ d.2 ++ k.2))

/-- Lines 280-291, `case StatusProperty.MAXHP`. -/
def caseMAXHP (amount : Int) (w : World) : World × List Effect :=
  let w1 : World := { w with life := { w.life with hp_max := amount } }
  let shown := if w1.life.hp > -1 then showLife w1 else []
  (w1, Effect.lifeUpdate :: shown)

/-- Lines 315-333, `case StatusProperty.CLEVEL`. -/
def caseCLEVEL (db : DB) (clock : Clock) (amount : Int) (w : World) : World × List Effect :=
  let w1 : World := { w with clevel := amount }
  let t :=
    if w1.pet.friendly > 900 then petTalk db clock.levelStamp PetMessage.PM_LEVELUP w1
    else (w1, [])
  (t.1, [Effect.auraLoad, Effect.basicInfoUpdate "blvl" [amount], Effect.equipmentOnLevelUp,
         Effect.changeCartOnLevelUp amount] ++ t.2)

/-- The body of each `case` clause of the `switch` (lines 217-564). -/
def runCase (db : DB) (clock : Clock) (pkt : StatusPacket) (amount : Int) (w : World) :
    Case → World × List Effect
  | .SPEED => ({ w with walkSpeed := amount }, [])
  | .EXP =>
    let b : BasicInfoUI := { w.basicInfo with base_exp := amount }
    ({ w with basicInfo := b },
      if b.base_exp_next ≠ 0 then [Effect.basicInfoUpdate "bexp" [b.base_exp, b.base_exp_next]] else [])
  | .JOBEXP =>
    let b : BasicInfoUI := { w.basicInfo with job_exp := amount }
    ({ w with basicInfo := b },
      if b.job_exp_next ≠ 0 then [Effect.basicInfoUpdate "jexp" [b.job_exp, b.job_exp_next]] else [])
  | .VIRTUE => (w, [])
  | .HONOR => (w, [])
  | .HP => caseHP db clock amount w
  | .MAXHP => caseMAXHP amount w
  | .SP =>
    let l : Life := { w.life with sp := amount }
    ({ w with life := l },
      Effect.lifeUpdate :: (if l.sp_max > -1 then [Effect.basicInfoUpdate "sp" [l.sp, l.sp_max]] else []))
  | .MAXSP =>
    let l : Life := { w.life with sp_max := amount }
    ({ w with life := l },
      Effect.lifeUpdate :: (if l.sp > -1 then [Effect.basicInfoUpdate "sp" [l.sp, l.sp_max]] else []))
  | .POINT => (w, [Effect.winStatsUpdate "statuspoint" (some amount)])
  | .CLEVEL => caseCLEVEL db clock amount w
  | .SKPOINT => (w, [Effect.skillListSetPoints amount])
  | .STR => (w, [Effect.winStatsUpdate "str" pkt.defaultStatus, Effect.winStatsUpdate "str2" pkt.plusStatus])
  | .AGI => (w, [Effect.winStatsUpdate "agi" pkt.defaultStatus, Effect.winStatsUpdate "agi2" pkt.plusStatus])
  | .VIT => (w, [Effect.winStatsUpdate "vit" pkt.defaultStatus, Effect.winStatsUpdate "vit2" pkt.plusStatus])
  | .INT => (w, [Effect.winStatsUpdate "int" pkt.defaultStatus, Effect.winStatsUpdate "int2" pkt.plusStatus])
  | .DEX => (w, [Effect.winStatsUpdate "dex" pkt.defaultStatus, Effect.winStatsUpdate "dex2" pkt.plusStatus])
  | .LUK => (w, [Effect.winStatsUpdate "luk" pkt.defaultStatus, Effect.winStatsUpdate "luk2" pkt.plusStatus])
  | .MONEY => (w, [Effect.basicInfoUpdate "zeny" [amount]])
  | .MAXEXP =>
    let b : BasicInfoUI := { w.basicInfo with base_exp_next := amount }
    ({ w with basicInfo := b },
      if b.base_exp > -1 then [Effect.basicInfoUpdate "bexp" [b.base_exp, b.base_exp_next]] else [])
  | .MAXJOBEXP =>
    let b : BasicInfoUI := { w.basicInfo with job_exp_next := amount }
    ({ w with basicInfo := b },
      if b.job_exp > -1 then [Effect.basicInfoUpdate "jexp" [b.job_exp, b.job_exp_next]] else [])
  | .WEIGHT =>
    let b : BasicInfoUI := { w.basicInfo with weight := amount }
    ({ w with basicInfo := b },
      if b.weight_max > -1 then [Effect.basicInfoUpdate "weight" [b.weight, b.weight_max]] else [])
  | .MAXWEIGHT =>
    let b : BasicInfoUI := { w.basicInfo with weight_max := amount }
    ({ w with basicInfo := b },
      if b.weight > -1 then [Effect.basicInfoUpdate "weight" [b.weight, b.weight_max]] else [])
  | .STANDARD_STR => (w, [Effect.winStatsUpdate "str3" (some amount)])
  | .STANDARD_AGI => (w, [Effect.winStatsUpdate "agi3" (some amount)])
  | .STANDARD_VIT => (w, [Effect.winStatsUpdate "vit3" (some amount)])
  | .STANDARD_INT => (w, [Effect.winStatsUpdate "int3" (some amount)])
  | .STANDARD_DEX => (w, [Effect.winStatsUpdate "dex3" (some amount)])
  | .STANDARD_LUK => (w, [Effect.winStatsUpdate "luk3" (some amount)])
  | .ATTPOWER => (w, [Effect.winStatsUpdate "atak" (some amount)])
  | .REFININGPOWER => (w, [Effect.winStatsUpdate "atak2" (some amount)])
  | .MAX_MATTPOWER => (w, [Effect.winStatsUpdate "matak" (some amount)])
  | .MIN_MATTPOWER => (w, [Effect.winStatsUpdate "matak2" (some amount)])
  | .ITEMDEFPOWER => (w, [Effect.winStatsUpdate "def" (some amount)])
  | .PLUSDEFPOWER => (w, [Effect.winStatsUpdate "def2" (some amount)])
  | .MDEFPOWER => (w, [Effect.winStatsUpdate "mdef" (some amount)])
  | .PLUSMDEFPOWER => (w, [Effect.winStatsUpdate "mdef2" (some amount)])
  | .HITSUCCESSVALUE => (w, [Effect.winStatsUpdate "hit" (some amount)])
  | .AVOIDSUCCESSVALUE => (w, [Effect.winStatsUpdate "flee" (some amount)])
  | .PLUSAVOIDSUCCESSVALUE => (w, [Effect.winStatsUpdate "flee2" (some amount)])
  | .CRITICALSUCCESSVALUE => (w, [Effect.winStatsUpdate "critical" (some amount)])
  | .ASPD => (w, [Effect.winStatsUpdate "aspd" (some amount)])
  | .JOBLEVEL => (w, [Effect.basicInfoUpdate "jlvl" [amount], Effect.skillListOnLevelUp])
  | .VAR_SP_POW => (w, [Effect.basicInfoUpdate "pow" [amount]])
  | .VAR_SP_STA => (w, [Effect.basicInfoUpdate "sta" [amount]])
  | .VAR_SP_WIS => (w, [Effect.basicInfoUpdate "wis" [amount]])
  | .VAR_SP_SPL => (w, [Effect.basicInfoUpdate "spl" [amount]])
  | .VAR_SP_CON => (w, [Effect.basicInfoUpdate "con" [amount]])
  | .VAR_SP_CRT => (w, [Effect.basicInfoUpdate "crt" [amount]])
  | .VAR_SP_PATK => (w, [Effect.basicInfoUpdate "patk" [amount]])
  | .VAR_SP_SMATK => (w, [Effect.basicInfoUpdate "smatk" [amount]])
  | .VAR_SP_RES => (w, [Effect.basicInfoUpdate "res" [amount]])
  | .VAR_SP_MRES => (w, [Effect.basicInfoUpdate "mres" [amount]])
  | .VAR_SP_HPLUS => (w, [Effect.basicInfoUpdate "hplus" [amount]])
  | .VAR_SP_CRATE => (w, [Effect.basicInfoUpdate "crate" [amount]])
  | .VAR_SP_TRAITPOINT => (w, [Effect.basicInfoUpdate "trait_point" [amount]])
  | .VAR_SP_AP => (w, [Effect.basicInfoUpdate "ap" [amount]])
  | .VAR_SP_MAXAP => (w, [Effect.basicInfoUpdate "max_ap" [amount]])
  | .VAR_SP_UPOW => (w, [Effect.basicInfoUpdate "upow" [amount]])
  | .VAR_SP_USTA => (w, [Effect.basicInfoUpdate "usta" [amount]])
  | .VAR_SP_UWIS => (w, [Effect.basicInfoUpdate "uwis" [amount]])
  | .VAR_SP_USPL => (w, [Effect.basicInfoUpdate "uspl" [amount]])
  | .VAR_SP_UCON => (w, [Effect.basicInfoUpdate "ucon" [amount]])
  | .VAR_SP_UCRT => (w, [Effect.basicInfoUpdate "ucrt" [amount]])

/-- Lines 188-569, `onParameterChange(pkt)`, handling `pkt` in state `w` with
the clock readings `clock`: the state after and the collaborator calls made. -/
def onParameterChange (sp : StatusProperty) (db : DB) (clock : Clock) (pkt : StatusPacket)
    (w : World) : World × List Effect :=
  let type := resolveType pkt
  let amount := resolveAmount pkt
  match switchCase sp type with
  | some c => runCase db clock pkt amount w c
  | none => (w, [Effect.consoleLog pkt])

/-! ## `onGlobalAnnounce` -/

/-- The test `msg.match(/^tag/)` for a literal `tag`: `msg` begins with `tag`. -/
def matchStart (tag : String) (msg : String) : Bool :=
  tag.data.isPrefixOf msg.data

/-- The call `msg.substr(n)`: `msg` without its first `n` characters. -/
def substr (msg : String) (n : Nat) : String :=
  ⟨msg.data.drop n⟩

/-- Lines 582-586: the string built from the three masked and shifted channels,
joined with commas. -/
def rgbString (fontColor : Nat) : String :=
  "rgb(" ++ ",".intercalate
    [ toString ((fontColor &&& 0x00ff0000) >>> 16),
      toString ((fontColor &&& 0x0000ff00) >>> 8),
      toString (fontColor &&& 0x000000ff) ] ++ ")"

/-- Lines 579-598: the text and the colour the announce is shown with.
`if (pkt.fontColor)` holds when the field is present and not zero. -/
def announceFormat (pkt : AnnouncePacket) : String × String :=
  if pkt.fontColor.getD 0 ≠ 0 then (pkt.msg, rgbString (pkt.fontColor.getD 0))
  else if matchStart "blue" pkt.msg then (substr pkt.msg 4, "#00FFFF")
  else if matchStart "ssss" pkt.msg then (substr pkt.msg 4, "#FFFF00")
  else (pkt.msg, "#FFFF00")

/-- Lines 577-603, `onGlobalAnnounce(pkt)`: the packet after (its `msg` is
overwritten when a tag is stripped) and the collaborator calls made. -/
def onGlobalAnnounce (pkt : AnnouncePacket) : AnnouncePacket × List Effect :=
  let f := announceFormat pkt
  ({ pkt with msg := f.1 },
    [ Effect.chatBoxAddText f.1 ChatBoxType.ANNOUNCE ChatBoxFilter.PUBLIC_CHAT (some f.2),
      Effect.announceAppend,
      Effect.announceSet f.1 f.2 ])

/-! ## Runs of `onParameterChange` -/

/-- An illustrative instance of the status code table, with pairwise
different codes. -/
def sampleStatusProperty : StatusProperty where
  SPEED := 0
  EXP := 1
  JOBEXP := 2
  VIRTUE := 3
  HONOR := 4
  HP := 5
  MAXHP := 6
  SP := 7
  MAXSP := 8
  POINT := 9
  CLEVEL := 11
  SKPOINT := 12
  STR := 13
  AGI := 14
  VIT := 15
  INT := 16
  DEX := 17
  LUK := 18
  MONEY := 20
  MAXEXP := 22
  MAXJOBEXP := 23
  WEIGHT := 24
  MAXWEIGHT := 25
  STANDARD_STR := 32
  STANDARD_AGI := 33
  STANDARD_VIT := 34
  STANDARD_INT := 35
  STANDARD_DEX := 36
  STANDARD_LUK := 37
  ATTPOWER := 41
  REFININGPOWER := 42
  MAX_MATTPOWER := 43
  MIN_MATTPOWER := 44
  ITEMDEFPOWER := 45
  PLUSDEFPOWER := 46
  MDEFPOWER := 47
  PLUSMDEFPOWER := 48
  HITSUCCESSVALUE := 49
  AVOIDSUCCESSVALUE := 50
  PLUSAVOIDSUCCESSVALUE := 51
  CRITICALSUCCESSVALUE := 52
  ASPD := 53
  JOBLEVEL := 55
  VAR_SP_POW := 219
  VAR_SP_STA := 220
  VAR_SP_WIS := 221
  VAR_SP_SPL := 222
  VAR_SP_CON := 223
  VAR_SP_CRT := 224
  VAR_SP_PATK := 225
  VAR_SP_SMATK := 226
  VAR_SP_RES := 227
  VAR_SP_MRES := 228
  VAR_SP_HPLUS := 229
  VAR_SP_CRATE := 230
  VAR_SP_TRAITPOINT := 231
  VAR_SP_AP := 232
  VAR_SP_MAXAP := 233
  VAR_SP_UPOW := 247
  VAR_SP_USTA := 248
  VAR_SP_UWIS := 249
  VAR_SP_USPL := 250
  VAR_SP_UCON := 251
  VAR_SP_UCRT := 252

/-- An illustrative instance of the two `DB` look-ups. -/
def sampleDB : DB where
  getPetHungryState := fun hungry => hungry / 25
  getPetTalkNumber := fun job line hunger =>
    match line with
    | .PM_DANGER => job * 100 + 10 + hunger
    | .PM_DEAD => job * 100 + 20 + hunger
    | .PM_LEVELUP => job * 100 + 30 + hunger

/-- An illustrative session state: vitals not yet received, a loyal pet that
has not talked yet, in a party. -/
def sampleWorld : World where
  walkSpeed := 150
  life := { hp := -1, hp_max := -1, sp := -1, sp_max := -1 }
  clevel := 1
  hasParty := true
  AID := 2000001
  pet := { friendly := 950, lastTalk := none, oldHungry := 80, job := 1002 }
  basicInfo := { base_exp := 0, base_exp_next := 1, job_exp := -1, job_exp_next := -1,
                 weight := 0, weight_max := 1 }

/-! ## Vocabulary of the specification -/

/-- The code of a status event in the words of the specification: `varID` if
present, else `statusType` if present, else `statusID` if present, else the
sentinel `-1`. -/
def specCode (pkt : StatusPacket) : Int :=
  match pkt.varID, pkt.statusType, pkt.statusID with
  | some v, _, _ => v
  | none, some t, _ => t
  | none, none, some i => i
  | none, none, none => -1

/-- The amount of a status event in the words of the specification: `amount`
if present, else `count` if present, else `value` if present, else `0`. -/
def specAmount (pkt : StatusPacket) : Int :=
  match pkt.amount, pkt.count, pkt.value with
  | some a, _, _ => a
  | none, some c, _ => c
  | none, none, some v => v
  | none, none, none => 0

/-- The status code table is an enumeration: the codes labelling the `case`
clauses are pairwise different. -/
def Distinct (sp : StatusProperty) : Prop :=
  (caseCodes sp).Nodup

instance (sp : StatusProperty) : Decidable (Distinct sp) :=
  inferInstanceAs (Decidable (caseCodes sp).Nodup)

/-- The argument lists of the 'hp' vital display calls among `effs`, in order. -/
def hpDisplays (effs : List Effect) : List (List Int) :=
  effs.filterMap fun e =>
    match e with
    | .basicInfoUpdate key args => if key = "hp" then some args else none
    | _ => none

/-- The `(AID, hp, hp_max)` arguments of the party roster calls among `effs`, in order. -/
def partyBroadcasts (effs : List Effect) : List (Int × Int × Int) :=
  effs.filterMap fun e =>
    match e with
    | .partyUpdateMemberLife aid hp hp_max => some (aid, hp, hp_max)
    | _ => none

/-- The `data` of the `PET_ACT` packets sent for message line `line` among `effs`, in order. -/
def petActs (line : PetMessage) (effs : List Effect) : List Int :=
  effs.filterMap fun e =>
    match e with
    | .sendPetAct l data => if l = line then some data else none
    | _ => none

/-- The `data` of the companion line `line` for the pet of `w`. -/
def petLine (db : DB) (line : PetMessage) (w : World) : Int :=
  db.getPetTalkNumber w.pet.job line (db.getPetHungryState w.pet.oldHungry)

/-- The readings of a call are in program order: the cooldown test is read no
later than the DANGER stamp, and the DANGER stamp no later than the DEAD stamp. -/
def Clock.ordered (c : Clock) : Prop :=
  c.test ≤ c.dangerStamp ∧ c.dangerStamp ≤ c.deadStamp

instance (c : Clock) : Decidable c.ordered :=
  inferInstanceAs (Decidable (c.test ≤ c.dangerStamp ∧ c.dangerStamp ≤ c.deadStamp))

/-- The earliest reading of a call. -/
def Clock.earliest (c : Clock) : Int :=
  min (min c.test c.dangerStamp) (min c.deadStamp c.levelStamp)

/-- The latest reading of a call. -/
def Clock.latest (c : Clock) : Int :=
  max (max c.test c.dangerStamp) (max c.deadStamp c.levelStamp)

/-- The call with readings `a` is over before the call with readings `b`
starts: no reading of `a` is later than a reading of `b`. -/
def Clock.precedes (a b : Clock) : Prop :=
  a.latest ≤ b.earliest

instance (a b : Clock) : Decidable (a.precedes b) :=
  inferInstanceAs (Decidable (a.latest ≤ b.earliest))

/-- An illustrative clock that starts at `t` and advances by 1 ms from one
reading of a call to the next. -/
def Clock.ticking (t : Int) : Clock :=
  { test := t, dangerStamp := t + 1, deadStamp := t + 2, levelStamp := t + 1 }

/-- A run of `onParameterChange` over status events, each the clock readings
of the call and a packet, handled one after the other: the state after the
run and, for every `PET_ACT` packet carrying the PM_DANGER line that was sent,
in order, the two readings that enclose its send (line 260): the reading of
the cooldown test before it and the reading of the stamp after it. -/
def run (sp : StatusProperty) (db : DB) :
    World → List (Clock × StatusPacket) → World × List (Int × Int)
  | w, [] => (w, [])
  | w, ev :: evs =>
    let r := onParameterChange sp db ev.1 ev.2 w
    let rest := run sp db r.1 evs
    (rest.1,
      (petActs PetMessage.PM_DANGER r.2).map (fun _ => (ev.1.test, ev.1.dangerStamp)) ++ rest.2)

/-- The colour string of a packed colour in the words of the specification:
`rgb(r,g,b)` with `r = (c >> 16) & 0xFF`, `g = (c >> 8) & 0xFF`, `b = c & 0xFF`. -/
def specRgb (c : Nat) : String :=
  "rgb(" ++ toString ((c >>> 16) &&& 0xFF) ++ "," ++ toString ((c >>> 8) &&& 0xFF) ++ ","
    ++ toString (c &&& 0xFF) ++ ")"

/-- The session of the scenario: `hp = 45`, `hp_max = 200`. -/
def scenarioWorld : World :=
  { sampleWorld with life := { hp := 45, hp_max := 200, sp := 10, sp_max := 20 } }

/-! ## `onStatusParameterChange` -/

/-- The decoded `PACKET.ZC.STATUS`, the combined status block: the fields
`onStatusParameterChange` reads. -/
structure StatusBlock where
  str : Int := 0
  agi : Int := 0
  vit : Int := 0
  dex : Int := 0
  luk : Int := 0
  standardStr : Int := 0
  standardAgi : Int := 0
  standardVit : Int := 0
  standardInt : Int := 0
  standardDex : Int := 0
  standardLuk : Int := 0
  ASPD : Int := 0
  plusASPD : Int := 0
  attPower : Int := 0
  refiningPower : Int := 0
  min_mattPower : Int := 0
  max_mattPower : Int := 0
  avoidSuccessValue : Int := 0
  plusAvoidSuccessValue : Int := 0
  criticalSuccessValue : Int := 0
  hitSuccessValue : Int := 0
  itemdefPower : Int := 0
  plusdefPower : Int := 0
  mdefPower : Int := 0
  plusmdefPower : Int := 0
  point : Int := 0
  Int : Int := 0

/-- Lines 113-141, `onStatusParameterChange(pkt)`: the `WinStats.update`
calls, in program order. -/
def onStatusParameterChange (pkt : StatusBlock) : List Effect :=
  [ Effect.winStatsUpdate "str" (some pkt.str),
    Effect.winStatsUpdate "agi" (some pkt.agi),
    Effect.winStatsUpdate "vit" (some pkt.vit),
    Effect.winStatsUpdate "int" (some pkt.Int),
    Effect.winStatsUpdate "dex" (some pkt.dex),
    Effect.winStatsUpdate "luk" (some pkt.luk),
    Effect.winStatsUpdate "str3" (some pkt.standardStr),
    Effect.winStatsUpdate "agi3" (some pkt.standardAgi),
    Effect.winStatsUpdate "vit3" (some pkt.standardVit),
    Effect.winStatsUpdate "int3" (some pkt.standardInt),
    Effect.winStatsUpdate "dex3" (some pkt.standardDex),
    Effect.winStatsUpdate "luk3" (some pkt.standardLuk),
    Effect.winStatsUpdateQuotient "aspd" (pkt.ASPD + pkt.plusASPD) 4,
    Effect.winStatsUpdate "atak" (some pkt.attPower),
    Effect.winStatsUpdate "atak2" (some pkt.refiningPower),
    Effect.winStatsUpdate "matak" (some pkt.min_mattPower),
    Effect.winStatsUpdate "matak2" (some pkt.max_mattPower),
    Effect.winStatsUpdate "flee" (some pkt.avoidSuccessValue),
    Effect.winStatsUpdate "flee2" (some pkt.plusAvoidSuccessValue),
    Effect.winStatsUpdate "critical" (some pkt.criticalSuccessValue),
    Effect.winStatsUpdate "hit" (some pkt.hitSuccessValue),
    Effect.winStatsUpdate "def" (some pkt.itemdefPower),
    Effect.winStatsUpdate "def2" (some pkt.plusdefPower),
    Effect.winStatsUpdate "mdef" (some pkt.mdefPower),
    Effect.winStatsUpdate "mdef2" (some pkt.plusmdefPower),
    Effect.winStatsUpdate "statuspoint" (some pkt.point) ]

/-! ## `onRank` -/

/-- The concrete kind of a rank packet, as tested by `instanceof`; `other` is
any kind that is none of the three. -/
inductive RankKind
  | BLACKSMITH_RANK
  | ALCHEMIST_RANK
  | TAEKWON_RANK
  | other
  deriving DecidableEq, Repr

/-- A decoded rank packet: its kind and the arrays `Name` and `Point`, `none`
when the packet has no such array. -/
structure RankPacket where
  kind : RankKind
  Name : Option (List String) := none
  Point : Option (List Int) := none
  deriving DecidableEq, Repr

/-- The first occurrence of `pat` in a text: the text before it and the text
after it, `none` when `pat` does not occur. -/
def splitFirst (pat : List Char) : List Char → Option (List Char × List Char)
  | [] => if pat.isEmpty then some ([], []) else none
  | c :: cs =>
    if pat.isPrefixOf (c :: cs) then some ([], (c :: cs).drop pat.length)
    else (splitFirst pat cs).map fun r => (c :: r.1, r.2)

/-- The expansion of a replacement text for a match of a string pattern (no
capture groups): `$$` is a dollar sign, `$&` the matched text, a dollar sign
and a grave accent the text before the match, a dollar sign and an apostrophe
the text after it; every other character, a dollar sign included, stands for
itself. -/
def getSubstitution (matched before after : List Char) : List Char → List Char
  | [] => []
  | [c] => [c]
  | c :: d :: r =>
    if c = '$' ∧ d = '$' then '$' :: getSubstitution matched before after r
    else if c = '$' ∧ d = '&' then matched ++ getSubstitution matched before after r
    else if c = '$' ∧ d = Char.ofNat 96 then before ++ getSubstitution matched before after r
    else if c = '$' ∧ d = Char.ofNat 39 then after ++ getSubstitution matched before after r
    else c :: getSubstitution matched before after (d :: r)

/-- The call `text.replace(pat, repl)` with a string pattern: the first
occurrence of `pat` is replaced by the expansion of `repl`; without an
occurrence the text is unchanged. -/
def stringReplace (text pat repl : String) : String :=
  match splitFirst pat.data text.data with
  | none => text
  | some (before, after) =>
    ⟨before ++ getSubstitution pat.data before after repl.data ++ after⟩

/-- Lines 747-756: the header line. -/
def rankHeader (getMessage : Nat → String) (kind : RankKind) : String :=
  "=========== " ++
    (match kind with
     | .BLACKSMITH_RANK => getMessage 2386
     | .ALCHEMIST_RANK => getMessage 2387
     | .TAEKWON_RANK => getMessage 2388
     | .other => "Unknown")
    ++ " " ++ getMessage 2383 ++ " ==========="

/-- Line 762, `pkt?.Name?.[i] ?? 'None'`. -/
def rankName (pkt : RankPacket) (i : Nat) : String :=
  ((pkt.Name.bind fun names => names.get? i).getD "None")

/-- Line 763, `pkt?.Point?.[i] ?? 0`. -/
def rankPoint (pkt : RankPacket) (i : Nat) : Int :=
  ((pkt.Point.bind fun points => points.get? i).getD 0)

/-- Lines 761-768: the line of loop index `i`. -/
def rankLine (getMessage : Nat → String) (pkt : RankPacket) (i : Nat) : String :=
  let message := "[%rank%] %name% : %point% " ++ getMessage 2385
  let message := stringReplace message "%rank%" (toString (i + 1))
  let message := stringReplace message "%name%" (rankName pkt i)
  stringReplace message "%point%" (toString (rankPoint pkt i))

/-- Lines 744-772, `onRank(pkt)`, with `DB.getMessage` as a parameter: the
`ChatBox.addText` calls, in program order. -/
def onRank (getMessage : Nat → String) (pkt : RankPacket) : List Effect :=
  Effect.chatBoxAddText (rankHeader getMessage pkt.kind) ChatBoxType.ANNOUNCE
      ChatBoxFilter.PUBLIC_LOG none ::
    (List.range 10).map fun i =>
      Effect.chatBoxAddText (rankLine getMessage pkt i) ChatBoxType.ANNOUNCE
        ChatBoxFilter.PUBLIC_LOG none

/-- An illustrative message table, with the texts the comments of `onRank` give. -/
def sampleMessages (id : Nat) : String :=
  if id = 2383 then "Rank"
  else if id = 2385 then "Points"
  else if id = 2386 then "BlackSmith"
  else if id = 2387 then "Alchemist"
  else if id = 2388 then "Taekwon"
  else ""

/-- The ranked-entry line in the words of the specification:
`'[' + rank + '] ' + name + ' : ' + points + ' ' + label`. -/
def specRankLine (label : String) (rank : Nat) (name : String) (points : Int) : String :=
  "[" ++ toString rank ++ "] " ++ name ++ " : " ++ toString points ++ " " ++ label

/-- The texts of the `ChatBox.addText` calls among `effs`, in order. -/
def chatTexts (effs : List Effect) : List String :=
  effs.filterMap fun e =>
    match e with
    | .chatBoxAddText text _ _ _ => some text
    | _ => none

/-! ## Attributes shared by the two status handlers -/

/-- The attributes that are both a field of the combined status block and a
`StatusProperty` code of the same name. -/
inductive SharedStat
  | STANDARD_STR | STANDARD_AGI | STANDARD_VIT | STANDARD_INT | STANDARD_DEX
  | STANDARD_LUK | ATTPOWER | REFININGPOWER | MIN_MATTPOWER | MAX_MATTPOWER
  | ITEMDEFPOWER | PLUSDEFPOWER | MDEFPOWER | PLUSMDEFPOWER | HITSUCCESSVALUE
  | AVOIDSUCCESSVALUE | PLUSAVOIDSUCCESSVALUE | CRITICALSUCCESSVALUE | POINT
  deriving DecidableEq, Repr

/-- The `StatusProperty` code named like the attribute. -/
def SharedStat.code (sp : StatusProperty) : SharedStat → Int
  | .STANDARD_STR => sp.STANDARD_STR
  | .STANDARD_AGI => sp.STANDARD_AGI
  | .STANDARD_VIT => sp.STANDARD_VIT
  | .STANDARD_INT => sp.STANDARD_INT
  | .STANDARD_DEX => sp.STANDARD_DEX
  | .STANDARD_LUK => sp.STANDARD_LUK
  | .ATTPOWER => sp.ATTPOWER
  | .REFININGPOWER => sp.REFININGPOWER
  | .MIN_MATTPOWER => sp.MIN_MATTPOWER
  | .MAX_MATTPOWER => sp.MAX_MATTPOWER
  | .ITEMDEFPOWER => sp.ITEMDEFPOWER
  | .PLUSDEFPOWER => sp.PLUSDEFPOWER
  | .MDEFPOWER => sp.MDEFPOWER
  | .PLUSMDEFPOWER => sp.PLUSMDEFPOWER
  | .HITSUCCESSVALUE => sp.HITSUCCESSVALUE
  | .AVOIDSUCCESSVALUE => sp.AVOIDSUCCESSVALUE
  | .PLUSAVOIDSUCCESSVALUE => sp.PLUSAVOIDSUCCESSVALUE
  | .CRITICALSUCCESSVALUE => sp.CRITICALSUCCESSVALUE
  | .POINT => sp.POINT

/-- The `case` clause labelled with the code named like the attribute. -/
def SharedStat.clause : SharedStat → Case
  | .STANDARD_STR => .STANDARD_STR
  | .STANDARD_AGI => .STANDARD_AGI
  | .STANDARD_VIT => .STANDARD_VIT
  | .STANDARD_INT => .STANDARD_INT
  | .STANDARD_DEX => .STANDARD_DEX
  | .STANDARD_LUK => .STANDARD_LUK
  | .ATTPOWER => .ATTPOWER
  | .REFININGPOWER => .REFININGPOWER
  | .MIN_MATTPOWER => .MIN_MATTPOWER
  | .MAX_MATTPOWER => .MAX_MATTPOWER
  | .ITEMDEFPOWER => .ITEMDEFPOWER
  | .PLUSDEFPOWER => .PLUSDEFPOWER
  | .MDEFPOWER => .MDEFPOWER
  | .PLUSMDEFPOWER => .PLUSMDEFPOWER
  | .HITSUCCESSVALUE => .HITSUCCESSVALUE
  | .AVOIDSUCCESSVALUE => .AVOIDSUCCESSVALUE
  | .PLUSAVOIDSUCCESSVALUE => .PLUSAVOIDSUCCESSVALUE
  | .CRITICALSUCCESSVALUE => .CRITICALSUCCESSVALUE
  | .POINT => .POINT

/-- The combined status block whose field named like the attribute is `v`,
every other field being `0`. -/
def SharedStat.block (v : Int) : SharedStat → StatusBlock
  | .STANDARD_STR => { standardStr := v }
  | .STANDARD_AGI => { standardAgi := v }
  | .STANDARD_VIT => { standardVit := v }
  | .STANDARD_INT => { standardInt := v }
  | .STANDARD_DEX => { standardDex := v }
  | .STANDARD_LUK => { standardLuk := v }
  | .ATTPOWER => { attPower := v }
  | .REFININGPOWER => { refiningPower := v }
  | .MIN_MATTPOWER => { min_mattPower := v }
  | .MAX_MATTPOWER => { max_mattPower := v }
  | .ITEMDEFPOWER => { itemdefPower := v }
  | .PLUSDEFPOWER => { plusdefPower := v }
  | .MDEFPOWER => { mdefPower := v }
  | .PLUSMDEFPOWER => { plusmdefPower := v }
  | .HITSUCCESSVALUE => { hitSuccessValue := v }
  | .AVOIDSUCCESSVALUE => { avoidSuccessValue := v }
  | .PLUSAVOIDSUCCESSVALUE => { plusAvoidSuccessValue := v }
  | .CRITICALSUCCESSVALUE => { criticalSuccessValue := v }
  | .POINT => { point := v }

/-- The keys of the `WinStats.update` calls among `effs` that pass the value `v`, in order. -/
def winStatsKeys (v : Int) (effs : List Effect) : List String :=
  effs.filterMap fun e =>
    match e with
    | .winStatsUpdate key value => if value = some v then some key else none
    | _ => none

/-- The keys under which `onStatusParameterChange` passes the attribute, read
off a block in which only that attribute has the value `v`. -/
def blockKeys (v : Int) (a : SharedStat) : List String :=
  winStatsKeys v (onStatusParameterChange (a.block v))

/-- The keys under which `onParameterChange` passes the attribute, read off a
status event carrying its code and the value `v`. -/
def paramKeys (sp : StatusProperty) (db : DB) (clock : Clock) (w : World) (v : Int)
    (a : SharedStat) : List String :=
  winStatsKeys v
    (onParameterChange sp db clock { varID := some (a.code sp), count := some v } w).2

/-! ## Field normalisation -/

/-- C1. `onParameterChange` resolves the attribute code as `varID` if present,
else `statusType` if present, else `statusID` if present, else `-1`, and the
amount as `amount` if present, else `count` if present, else `value` if
present, else `0`; the resolved pair depends on no other field of the packet,
and the handler is the dispatch of the `switch` on exactly that pair. -/
theorem onParameterChange_resolution (sp : StatusProperty) (db : DB) (clock : Clock)
    (pkt : StatusPacket) (w : World) :
    resolveType pkt = specCode pkt ∧ resolveAmount pkt = specAmount pkt ∧
    onParameterChange sp db clock pkt w =
      (match switchCase sp (specCode pkt) with
       | some c => runCase db clock pkt (specAmount pkt) w c
       | none => (w, [Effect.consoleLog pkt])) := by
  have h1 : resolveType pkt = specCode pkt := by
    unfold resolveType specCode
    cases pkt.varID <;> cases pkt.statusType <;> cases pkt.statusID <;> simp
  have h2 : resolveAmount pkt = specAmount pkt := by
    unfold resolveAmount specAmount
    cases pkt.amount <;> cases pkt.count <;> cases pkt.value <;> simp
  refine ⟨h1, h2, ?_⟩
  unfold onParameterChange
  simp only [h1, h2]

/-! ## Selection of the `case` clause -/

/-- In a list of labelled clauses with pairwise different labels, looking a
label up yields the clause it is paired with. -/
theorem lookup_of_nodup_keys {l : List (Int × Case)} (hn : (l.map Prod.fst).Nodup)
    {k : Int} {c : Case} (hm : (k, c) ∈ l) : l.lookup k = some c := by
  induction l with
  | nil => simp at hm
  | cons p t ih =>
    obtain ⟨k', c'⟩ := p
    rw [List.map_cons, List.nodup_cons] at hn
    rcases List.mem_cons.mp hm with heq | hmem
    · cases heq
      simp
    · have hne : k ≠ k' := by
        rintro rfl
        exact hn.1 (List.mem_map.mpr ⟨(k, c), hmem, rfl⟩)
      rw [List.lookup_cons]
      have hb : (k == k') = false := by simpa using hne
      rw [hb]
      exact ih hn.2 hmem

/-- With an enumeration as code table, the code `HP` selects `case StatusProperty.HP`. -/
theorem switchCase_HP {sp : StatusProperty} (hsp : Distinct sp) :
    switchCase sp sp.HP = some Case.HP :=
  lookup_of_nodup_keys hsp (by simp [caseLabels])

/-- With an enumeration as code table, the code `MAXHP` selects `case StatusProperty.MAXHP`. -/
theorem switchCase_MAXHP {sp : StatusProperty} (hsp : Distinct sp) :
    switchCase sp sp.MAXHP = some Case.MAXHP :=
  lookup_of_nodup_keys hsp (by simp [caseLabels])

/-- An HP status update runs the body of `case StatusProperty.HP`. -/
theorem onParameterChange_HP {sp : StatusProperty} (hsp : Distinct sp) (db : DB) (clock : Clock)
    {pkt : StatusPacket} (hty : resolveType pkt = sp.HP) (w : World) :
    onParameterChange sp db clock pkt w = caseHP db clock (resolveAmount pkt) w := by
  unfold onParameterChange
  simp only [hty, switchCase_HP hsp, runCase]

/-- A MAXHP status update runs the body of `case StatusProperty.MAXHP`. -/
theorem onParameterChange_MAXHP {sp : StatusProperty} (hsp : Distinct sp) (db : DB) (clock : Clock)
    {pkt : StatusPacket} (hty : resolveType pkt = sp.MAXHP) (w : World) :
    onParameterChange sp db clock pkt w = caseMAXHP (resolveAmount pkt) w := by
  unfold onParameterChange
  simp only [hty, switchCase_MAXHP hsp, runCase]

/-- The `//Danger` block makes no 'hp' display call and keeps the vitals. -/
theorem dangerCheck_frame (db : DB) (clock : Clock) (w : World) :
    hpDisplays (dangerCheck db clock w).2 = [] ∧ (dangerCheck db clock w).1.life = w.life ∧
    partyBroadcasts (dangerCheck db clock w).2 = [] := by
  unfold dangerCheck
  split_ifs <;> simp [petTalk, hpDisplays, partyBroadcasts]

/-- The `//Died` block makes no 'hp' display call and keeps the vitals. -/
theorem diedCheck_frame (db : DB) (clock : Clock) (w : World) :
    hpDisplays (diedCheck db clock w).2 = [] ∧ (diedCheck db clock w).1.life = w.life ∧
    partyBroadcasts (diedCheck db clock w).2 = [] := by
  unfold diedCheck
  split_ifs <;> simp [petTalk, hpDisplays, partyBroadcasts]

/-- The 'hp' display calls of `showLife`: one, with the current pair. -/
theorem hpDisplays_showLife (w : World) :
    hpDisplays (showLife w) = [[w.life.hp, w.life.hp_max]] := by
  unfold showLife hpDisplays
  split_ifs <;> simp

/-- The 'hp' display calls and the vitals after `case StatusProperty.HP`. -/
theorem caseHP_vital (db : DB) (clock : Clock) (amount : Int) (w : World) :
    hpDisplays (caseHP db clock amount w).2
      = (if w.life.hp_max > -1 then [[amount, w.life.hp_max]] else []) ∧
    (caseHP db clock amount w).1.life = { w.life with hp := amount } := by
  unfold caseHP
  simp only []
  refine ⟨?_, ?_⟩
  · have hd := (dangerCheck_frame db clock { w with life := { w.life with hp := amount } }).1
    have hk := (diedCheck_frame db clock
      (dangerCheck db clock { w with life := { w.life with hp := amount } }).1).1
    have hsplit : ∀ a b c : List Effect,
        hpDisplays (Effect.lifeUpdate :: (a ++ b ++ c))
          = hpDisplays a ++ hpDisplays b ++ hpDisplays c := by
      intro a b c
      simp [hpDisplays, List.filterMap_append]
    rw [hsplit, hd, hk]
    split_ifs
    · simp [hpDisplays_showLife]
    · simp [hpDisplays]
  · rw [(diedCheck_frame db clock _).2.1, (dangerCheck_frame db clock _).2.1]

/-- The 'hp' display calls and the vitals after `case StatusProperty.MAXHP`. -/
theorem caseMAXHP_vital (amount : Int) (w : World) :
    hpDisplays (caseMAXHP amount w).2
      = (if w.life.hp > -1 then [[w.life.hp, amount]] else []) ∧
    (caseMAXHP amount w).1.life = { w.life with hp_max := amount } := by
  unfold caseMAXHP
  refine ⟨?_, rfl⟩
  show hpDisplays (Effect.lifeUpdate ::
      (if w.life.hp > -1 then showLife { w with life := { w.life with hp_max := amount } }
       else [])) = _
  split_ifs
  · simp [hpDisplays, showLife]
  · simp [hpDisplays]

/-! ## The HP vital -/

/-- C2. Order-independence of the HP vital. From a state whose `hp` and
`hp_max` are both the sentinel `-1`, for `h ≥ 0` and `m ≥ 0`, handling
(MAXHP = m, then HP = h) or (HP = h, then MAXHP = m) makes no 'hp' display
call at the first update, while the other half is still the sentinel, and
exactly one over both updates, with arguments `(h, m)`; both orders end with
`hp = h` and `hp_max = m`. -/
theorem hp_vital_order_independent (sp : StatusProperty) (db : DB) (hsp : Distinct sp)
    (w : World) (h m : Int) (clock₁ clock₂ : Clock) (pktH pktM : StatusPacket)
    (hhp : w.life.hp = -1) (hmax : w.life.hp_max = -1) (hh : 0 ≤ h) (hm : 0 ≤ m)
    (hH : resolveType pktH = sp.HP) (hHa : resolveAmount pktH = h)
    (hM : resolveType pktM = sp.MAXHP) (hMa : resolveAmount pktM = m) :
    (hpDisplays (onParameterChange sp db clock₁ pktM w).2 = [] ∧
     hpDisplays ((onParameterChange sp db clock₁ pktM w).2 ++
       (onParameterChange sp db clock₂ pktH (onParameterChange sp db clock₁ pktM w).1).2)
         = [[h, m]] ∧
     (onParameterChange sp db clock₂ pktH (onParameterChange sp db clock₁ pktM w).1).1.life.hp = h ∧
     (onParameterChange sp db clock₂ pktH (onParameterChange sp db clock₁ pktM w).1).1.life.hp_max
       = m) ∧
    (hpDisplays (onParameterChange sp db clock₁ pktH w).2 = [] ∧
     hpDisplays ((onParameterChange sp db clock₁ pktH w).2 ++
       (onParameterChange sp db clock₂ pktM (onParameterChange sp db clock₁ pktH w).1).2)
         = [[h, m]] ∧
     (onParameterChange sp db clock₂ pktM (onParameterChange sp db clock₁ pktH w).1).1.life.hp = h ∧
     (onParameterChange sp db clock₂ pktM (onParameterChange sp db clock₁ pktH w).1).1.life.hp_max
       = m) := by
  have happ : ∀ a b : List Effect, hpDisplays (a ++ b) = hpDisplays a ++ hpDisplays b := by
    intro a b
    simp [hpDisplays, List.filterMap_append]
  simp only [onParameterChange_HP hsp db _ hH, onParameterChange_MAXHP hsp db _ hM, hHa, hMa,
    happ]
  constructor
  · -- MAXHP first, then HP
    have e1 := caseMAXHP_vital m w
    have e2 := caseHP_vital db clock₂ h (caseMAXHP m w).1
    rw [e1.2] at e2
    rw [e1.1, e2.1, e2.2]
    have hm' : m > -1 := by omega
    simp [hhp, hm']
  · -- HP first, then MAXHP
    have e1 := caseHP_vital db clock₁ h w
    have e2 := caseMAXHP_vital m (caseHP db clock₁ h w).1
    rw [e1.2] at e2
    rw [e1.1, e2.1, e2.2]
    have hh' : h > -1 := by omega
    simp [hmax, hh']

/-- C2, at the sample table: MAXHP = 100 and HP = 50 from the sentinel state,
in either order. -/
theorem hp_vital_order_independent_witness :
    (hpDisplays (onParameterChange sampleStatusProperty sampleDB (Clock.ticking 1000)
        { varID := some 6, count := some 100 } sampleWorld).2 = [] ∧
     hpDisplays ((onParameterChange sampleStatusProperty sampleDB (Clock.ticking 1000)
        { varID := some 6, count := some 100 } sampleWorld).2 ++
       (onParameterChange sampleStatusProperty sampleDB (Clock.ticking 2000) { varID := some 5, count := some 50 }
         (onParameterChange sampleStatusProperty sampleDB (Clock.ticking 1000)
           { varID := some 6, count := some 100 } sampleWorld).1).2) = [[50, 100]] ∧
     (onParameterChange sampleStatusProperty sampleDB (Clock.ticking 2000) { varID := some 5, count := some 50 }
         (onParameterChange sampleStatusProperty sampleDB (Clock.ticking 1000)
           { varID := some 6, count := some 100 } sampleWorld).1).1.life.hp = 50 ∧
     (onParameterChange sampleStatusProperty sampleDB (Clock.ticking 2000) { varID := some 5, count := some 50 }
         (onParameterChange sampleStatusProperty sampleDB (Clock.ticking 1000)
           { varID := some 6, count := some 100 } sampleWorld).1).1.life.hp_max = 100) ∧
    (hpDisplays (onParameterChange sampleStatusProperty sampleDB (Clock.ticking 1000)
        { varID := some 5, count := some 50 } sampleWorld).2 = [] ∧
     hpDisplays ((onParameterChange sampleStatusProperty sampleDB (Clock.ticking 1000)
        { varID := some 5, count := some 50 } sampleWorld).2 ++
       (onParameterChange sampleStatusProperty sampleDB (Clock.ticking 2000) { varID := some 6, count := some 100 }
         (onParameterChange sampleStatusProperty sampleDB (Clock.ticking 1000)
           { varID := some 5, count := some 50 } sampleWorld).1).2) = [[50, 100]] ∧
     (onParameterChange sampleStatusProperty sampleDB (Clock.ticking 2000) { varID := some 6, count := some 100 }
         (onParameterChange sampleStatusProperty sampleDB (Clock.ticking 1000)
           { varID := some 5, count := some 50 } sampleWorld).1).1.life.hp = 50 ∧
     (onParameterChange sampleStatusProperty sampleDB (Clock.ticking 2000) { varID := some 6, count := some 100 }
         (onParameterChange sampleStatusProperty sampleDB (Clock.ticking 1000)
           { varID := some 5, count := some 50 } sampleWorld).1).1.life.hp_max = 100) :=
  hp_vital_order_independent sampleStatusProperty sampleDB (by decide) sampleWorld 50 100
    (Clock.ticking 1000) (Clock.ticking 2000)
    { varID := some 5, count := some 50 } { varID := some 6, count := some 100 }
    (by decide) (by decide) (by decide) (by decide) (by decide) (by decide) (by decide) (by decide)

/-! ## Companion reactions on an HP update -/

/-- For integers, `hp <= 25/100*hp_max` as the source writes it is the test
`4*hp <= hp_max` of `dangerCheck`. -/
theorem quarter_le_iff (hp hp_max : Int) :
    ((hp : ℚ) ≤ 25 / 100 * (hp_max : ℚ)) ↔ 4 * hp ≤ hp_max := by
  constructor
  · intro h
    have h4 : ((4 * hp : Int) : ℚ) ≤ (hp_max : ℚ) := by
      push_cast
      linarith
    exact_mod_cast h4
  · intro h
    have h4 : ((4 * hp : Int) : ℚ) ≤ (hp_max : ℚ) := by exact_mod_cast h
    push_cast at h4
    linarith

/-- The `//Danger` block as one test. -/
theorem dangerCheck_eq (db : DB) (clock : Clock) (w : World) :
    dangerCheck db clock w
      = if 4 * w.life.hp ≤ w.life.hp_max ∧ w.pet.friendly > 900 ∧
            w.pet.lastTalk.getD 0 + 10000 < clock.test
        then petTalk db clock.dangerStamp PetMessage.PM_DANGER w else (w, []) := by
  unfold dangerCheck
  split_ifs <;> simp_all

/-- The `//Died` block as one test. -/
theorem diedCheck_eq (db : DB) (clock : Clock) (w : World) :
    diedCheck db clock w
      = if w.life.hp ≤ 1 ∧ w.pet.friendly > 900
        then petTalk db clock.deadStamp PetMessage.PM_DEAD w else (w, []) := by
  unfold diedCheck
  split_ifs <;> simp_all

/-- The body of `case StatusProperty.HP`, with the committed state named. -/
theorem caseHP_eq (db : DB) (clock : Clock) (amount : Int) (w : World) :
    caseHP db clock amount w
      = ((diedCheck db clock
            (dangerCheck db clock { w with life := { w.life with hp := amount } }).1).1,
         Effect.lifeUpdate ::
          ((if ({ w with life := { w.life with hp := amount } } : World).life.hp_max > -1
            then showLife { w with life := { w.life with hp := amount } } else [])
           ++ (dangerCheck db clock { w with life := { w.life with hp := amount } }).2
           ++ (diedCheck db clock
                (dangerCheck db clock { w with life := { w.life with hp := amount } }).1).2)) :=
  rfl

/-- What the `//Danger` and `//Died` blocks, run one after the other after
calls `shown` that send nothing to the pet, send to the pet and leave in
`lastTalk`. -/
theorem checks_pet (db : DB) (clock : Clock) (v : World) (shown : List Effect)
    (hs : ∀ line, petActs line shown = []) :
    petActs PetMessage.PM_DANGER (Effect.lifeUpdate ::
        (shown ++ (dangerCheck db clock v).2
          ++ (diedCheck db clock (dangerCheck db clock v).1).2))
      = (if 4 * v.life.hp ≤ v.life.hp_max ∧ v.pet.friendly > 900 ∧
            v.pet.lastTalk.getD 0 + 10000 < clock.test
         then [petLine db PetMessage.PM_DANGER v] else []) ∧
    petActs PetMessage.PM_DEAD (Effect.lifeUpdate ::
        (shown ++ (dangerCheck db clock v).2
          ++ (diedCheck db clock (dangerCheck db clock v).1).2))
      = (if v.life.hp ≤ 1 ∧ v.pet.friendly > 900
         then [petLine db PetMessage.PM_DEAD v] else []) ∧
    (diedCheck db clock (dangerCheck db clock v).1).1.pet.lastTalk
      = (if v.life.hp ≤ 1 ∧ v.pet.friendly > 900 then some clock.deadStamp
         else if 4 * v.life.hp ≤ v.life.hp_max ∧ v.pet.friendly > 900 ∧
              v.pet.lastTalk.getD 0 + 10000 < clock.test then some clock.dangerStamp
         else v.pet.lastTalk) := by
  have hsplit : ∀ (line : PetMessage) (a b c : List Effect),
      petActs line (Effect.lifeUpdate :: (a ++ b ++ c))
        = petActs line a ++ petActs line b ++ petActs line c := by
    intro line a b c
    simp [petActs, List.filterMap_append]
  simp only [hsplit, hs, List.nil_append]
  rw [dangerCheck_eq, diedCheck_eq]
  by_cases hf : v.pet.friendly > 900 <;> by_cases h1 : 4 * v.life.hp ≤ v.life.hp_max <;>
    by_cases h2 : v.pet.lastTalk.getD 0 + 10000 < clock.test <;>
    by_cases h3 : v.life.hp ≤ 1 <;>
    simp [hf, h1, h2, h3, petTalk, petActs, petLine]

/-- What `case StatusProperty.HP` sends to the pet and leaves in `lastTalk`. -/
theorem caseHP_pet (db : DB) (clock : Clock) (amount : Int) (w : World) :
    petActs PetMessage.PM_DANGER (caseHP db clock amount w).2
      = (if 4 * amount ≤ w.life.hp_max ∧ w.pet.friendly > 900 ∧
            w.pet.lastTalk.getD 0 + 10000 < clock.test
         then [petLine db PetMessage.PM_DANGER w] else []) ∧
    petActs PetMessage.PM_DEAD (caseHP db clock amount w).2
      = (if amount ≤ 1 ∧ w.pet.friendly > 900
         then [petLine db PetMessage.PM_DEAD w] else []) ∧
    (caseHP db clock amount w).1.pet.lastTalk
      = (if amount ≤ 1 ∧ w.pet.friendly > 900 then some clock.deadStamp
         else if 4 * amount ≤ w.life.hp_max ∧ w.pet.friendly > 900 ∧
              w.pet.lastTalk.getD 0 + 10000 < clock.test then some clock.dangerStamp
         else w.pet.lastTalk) := by
  have hshown : ∀ line, petActs line
      (if ({ w with life := { w.life with hp := amount } } : World).life.hp_max > -1
       then showLife { w with life := { w.life with hp := amount } } else []) = [] := by
    intro line
    unfold showLife
    split_ifs <;> simp [petActs]
  exact checks_pet db clock { w with life := { w.life with hp := amount } } _ hshown

/-- C3. On an HP status update, the DANGER reaction is emitted exactly when
pet friendliness is above 900, more than 10000 ms have passed since the last
dialogue (`lastTalk`, 0 when unset) at the clock reading of the test, and the
just-committed `hp` is at most 25% of `hp_max`. When emitted it is one
`PET_ACT` packet carrying the PM_DANGER line, and `lastTalk` is set to the
current time: the reading of `Date.now()` taken after the send (line 261), or
the one of line 274 when the DEATH reaction follows in the same update; for an
update handled at one clock time `now`, all readings being `now`, `lastTalk`
is `now`. -/
theorem danger_reaction_iff (sp : StatusProperty) (db : DB) (hsp : Distinct sp) (clock : Clock)
    (pkt : StatusPacket) (w : World) (hty : resolveType pkt = sp.HP) :
    (onParameterChange sp db clock pkt w).1.life.hp = resolveAmount pkt ∧
    (onParameterChange sp db clock pkt w).1.life.hp_max = w.life.hp_max ∧
    (petActs PetMessage.PM_DANGER (onParameterChange sp db clock pkt w).2 ≠ [] ↔
      (w.pet.friendly > 900 ∧ clock.test - w.pet.lastTalk.getD 0 > 10000 ∧
        (((onParameterChange sp db clock pkt w).1.life.hp : ℚ)
          ≤ 25 / 100 * ((onParameterChange sp db clock pkt w).1.life.hp_max : ℚ)))) ∧
    (petActs PetMessage.PM_DANGER (onParameterChange sp db clock pkt w).2 ≠ [] →
      petActs PetMessage.PM_DANGER (onParameterChange sp db clock pkt w).2
        = [petLine db PetMessage.PM_DANGER w] ∧
      (onParameterChange sp db clock pkt w).1.pet.lastTalk
        = some (if resolveAmount pkt ≤ 1 then clock.deadStamp else clock.dangerStamp) ∧
      (∀ now : Int, clock.test = now → clock.dangerStamp = now → clock.deadStamp = now →
        (onParameterChange sp db clock pkt w).1.pet.lastTalk = some now)) := by
  rw [onParameterChange_HP hsp db clock hty w]
  obtain ⟨hd, -, hl⟩ := caseHP_pet db clock (resolveAmount pkt) w
  have hlife := (caseHP_vital db clock (resolveAmount pkt) w).2
  have hhp : (caseHP db clock (resolveAmount pkt) w).1.life.hp = resolveAmount pkt := by
    rw [hlife]
  have hmx : (caseHP db clock (resolveAmount pkt) w).1.life.hp_max = w.life.hp_max := by
    rw [hlife]
  refine ⟨hhp, hmx, ?_, ?_⟩
  · rw [hd, hhp, hmx, quarter_le_iff]
    constructor
    · intro h
      split_ifs at h with hc
      · exact ⟨hc.2.1, by omega, hc.1⟩
      · exact absurd rfl h
    · rintro ⟨h1, h2, h3⟩
      rw [if_pos ⟨h3, h1, by omega⟩]
      simp
  · intro h
    rw [hd] at h ⊢
    split_ifs at h with hc
    · have hstamp : (caseHP db clock (resolveAmount pkt) w).1.pet.lastTalk
          = some (if resolveAmount pkt ≤ 1 then clock.deadStamp else clock.dangerStamp) := by
        rw [hl]
        by_cases h1 : resolveAmount pkt ≤ 1
        · rw [if_pos ⟨h1, hc.2.1⟩, if_pos h1]
        · rw [if_neg (fun hk => h1 hk.1), if_pos hc, if_neg h1]
      refine ⟨by rw [if_pos hc], hstamp, ?_⟩
      intro now _ h2 h3
      rw [hstamp, h2, h3]
      simp
    · exact absurd rfl h

/-- C3, at the sample table: HP = 10 of 200 with a clock that reads 20000 at
the test and 20001 at the stamp, the pet not having talked yet; the DANGER
line is sent and `lastTalk` is the later reading. -/
theorem danger_reaction_iff_witness :
    petActs PetMessage.PM_DANGER (onParameterChange sampleStatusProperty sampleDB
        (Clock.ticking 20000) { varID := some 5, count := some 10 } scenarioWorld).2
      = [petLine sampleDB PetMessage.PM_DANGER scenarioWorld] ∧
    (onParameterChange sampleStatusProperty sampleDB (Clock.ticking 20000)
        { varID := some 5, count := some 10 } scenarioWorld).1.pet.lastTalk = some 20001 :=
  ⟨((danger_reaction_iff sampleStatusProperty sampleDB (by decide) (Clock.ticking 20000)
      { varID := some 5, count := some 10 } scenarioWorld (by decide)).2.2.2 (by decide)).1,
   ((danger_reaction_iff sampleStatusProperty sampleDB (by decide) (Clock.ticking 20000)
      { varID := some 5, count := some 10 } scenarioWorld (by decide)).2.2.2
        (by decide)).2.1.trans (by decide)⟩

/-- C4. On an HP status update, the DEATH reaction is emitted exactly when pet
friendliness is above 900 and the just-committed `hp` is at most 1, whatever
`lastTalk` is and whether or not the DANGER reaction is emitted for the same
update; when emitted it is one `PET_ACT` packet carrying the PM_DEAD line. -/
theorem death_reaction_iff (sp : StatusProperty) (db : DB) (hsp : Distinct sp) (clock : Clock)
    (pkt : StatusPacket) (w : World) (hty : resolveType pkt = sp.HP) :
    (onParameterChange sp db clock pkt w).1.life.hp = resolveAmount pkt ∧
    (petActs PetMessage.PM_DEAD (onParameterChange sp db clock pkt w).2 ≠ [] ↔
      (w.pet.friendly > 900 ∧ (onParameterChange sp db clock pkt w).1.life.hp ≤ 1)) ∧
    (petActs PetMessage.PM_DEAD (onParameterChange sp db clock pkt w).2 ≠ [] →
      petActs PetMessage.PM_DEAD (onParameterChange sp db clock pkt w).2
        = [petLine db PetMessage.PM_DEAD w]) ∧
    (∀ t : Option Int,
      petActs PetMessage.PM_DEAD
          (onParameterChange sp db clock pkt { w with pet := { w.pet with lastTalk := t } }).2
        = petActs PetMessage.PM_DEAD (onParameterChange sp db clock pkt w).2) := by
  have hhp : (caseHP db clock (resolveAmount pkt) w).1.life.hp = resolveAmount pkt := by
    rw [(caseHP_vital db clock (resolveAmount pkt) w).2]
  refine ⟨?_, ?_, ?_, ?_⟩
  · rw [onParameterChange_HP hsp db clock hty w, hhp]
  · rw [onParameterChange_HP hsp db clock hty w, hhp, (caseHP_pet db clock (resolveAmount pkt) w).2.1]
    constructor
    · intro h
      split_ifs at h with hc
      · exact ⟨hc.2, hc.1⟩
      · exact absurd rfl h
    · rintro ⟨h1, h2⟩
      rw [if_pos ⟨h2, h1⟩]
      simp
  · rw [onParameterChange_HP hsp db clock hty w, (caseHP_pet db clock (resolveAmount pkt) w).2.1]
    intro h
    split_ifs at h with hc
    · rw [if_pos hc]
    · exact absurd rfl h
  · intro t
    rw [onParameterChange_HP hsp db clock hty w, onParameterChange_HP hsp db clock hty _,
      (caseHP_pet db clock (resolveAmount pkt) w).2.1,
      (caseHP_pet db clock (resolveAmount pkt) _).2.1]
    rfl

/-- C4, at the sample table: HP = 0 of 200 while the pet talked 1 ms before
the first clock reading. -/
theorem death_reaction_iff_witness :
    petActs PetMessage.PM_DEAD (onParameterChange sampleStatusProperty sampleDB (Clock.ticking 20000)
        { varID := some 5, count := some 0 }
        { scenarioWorld with pet := { scenarioWorld.pet with lastTalk := some 19999 } }).2
      = [petLine sampleDB PetMessage.PM_DEAD
          { scenarioWorld with pet := { scenarioWorld.pet with lastTalk := some 19999 } }] :=
  (death_reaction_iff sampleStatusProperty sampleDB (by decide) (Clock.ticking 20000)
    { varID := some 5, count := some 0 }
    { scenarioWorld with pet := { scenarioWorld.pet with lastTalk := some 19999 } }
    (by decide)).2.2.1 (by decide)

/-! ## The DANGER cooldown over a run -/

/-- What `case StatusProperty.CLEVEL` sends to the pet and leaves in `lastTalk`. -/
theorem caseCLEVEL_pet (db : DB) (clock : Clock) (amount : Int) (w : World) :
    petActs PetMessage.PM_DANGER (caseCLEVEL db clock amount w).2 = [] ∧
    ((caseCLEVEL db clock amount w).1.pet.lastTalk = w.pet.lastTalk ∨
      (caseCLEVEL db clock amount w).1.pet.lastTalk = some clock.levelStamp) := by
  unfold caseCLEVEL
  by_cases hf : w.pet.friendly > 900 <;> simp [hf, petTalk, petActs]

/-- What `case StatusProperty.MAXHP` sends to the pet and leaves in `lastTalk`. -/
theorem caseMAXHP_pet (amount : Int) (w : World) :
    petActs PetMessage.PM_DANGER (caseMAXHP amount w).2 = [] ∧
    (caseMAXHP amount w).1.pet.lastTalk = w.pet.lastTalk := by
  unfold caseMAXHP showLife
  refine ⟨?_, rfl⟩
  by_cases h1 : w.life.hp > -1 <;> by_cases h2 : w.hasParty <;> simp [h1, h2, petActs]

/-- The body of any `case` clause keeps `lastTalk` or sets it to one of the
stamp readings; it sends no DANGER line, or exactly one, and one only when
more than 10000 ms have passed since `lastTalk` at the reading of the test,
`lastTalk` then being the DANGER stamp or the DEAD stamp. -/
theorem runCase_lastTalk (db : DB) (clock : Clock) (pkt : StatusPacket) (amount : Int)
    (w : World) (c : Case) :
    ((runCase db clock pkt amount w c).1.pet.lastTalk = w.pet.lastTalk ∨
      (runCase db clock pkt amount w c).1.pet.lastTalk = some clock.dangerStamp ∨
      (runCase db clock pkt amount w c).1.pet.lastTalk = some clock.deadStamp ∨
      (runCase db clock pkt amount w c).1.pet.lastTalk = some clock.levelStamp) ∧
    (petActs PetMessage.PM_DANGER (runCase db clock pkt amount w c).2 = [] ∨
      (petActs PetMessage.PM_DANGER (runCase db clock pkt amount w c).2
          = [petLine db PetMessage.PM_DANGER w] ∧
        w.pet.lastTalk.getD 0 + 10000 < clock.test ∧
        ((runCase db clock pkt amount w c).1.pet.lastTalk = some clock.dangerStamp ∨
          (runCase db clock pkt amount w c).1.pet.lastTalk = some clock.deadStamp))) := by
  cases c
  case HP =>
    simp only [runCase]
    obtain ⟨hd, -, hl⟩ := caseHP_pet db clock amount w
    rw [hd, hl]
    by_cases hK : amount ≤ 1 ∧ w.pet.friendly > 900
    · rw [if_pos hK]
      refine ⟨Or.inr (Or.inr (Or.inl rfl)), ?_⟩
      by_cases hD : 4 * amount ≤ w.life.hp_max ∧ w.pet.friendly > 900 ∧
          w.pet.lastTalk.getD 0 + 10000 < clock.test
      · rw [if_pos hD]
        exact Or.inr ⟨rfl, hD.2.2, Or.inr rfl⟩
      · rw [if_neg hD]
        exact Or.inl rfl
    · rw [if_neg hK]
      by_cases hD : 4 * amount ≤ w.life.hp_max ∧ w.pet.friendly > 900 ∧
          w.pet.lastTalk.getD 0 + 10000 < clock.test
      · rw [if_pos hD, if_pos hD]
        exact ⟨Or.inr (Or.inl rfl), Or.inr ⟨rfl, hD.2.2, Or.inl rfl⟩⟩
      · rw [if_neg hD, if_neg hD]
        exact ⟨Or.inl rfl, Or.inl rfl⟩
  case MAXHP =>
    simp only [runCase]
    obtain ⟨hd, hl⟩ := caseMAXHP_pet amount w
    exact ⟨Or.inl hl, Or.inl hd⟩
  case CLEVEL =>
    simp only [runCase]
    obtain ⟨hd, hl⟩ := caseCLEVEL_pet db clock amount w
    refine ⟨?_, Or.inl hd⟩
    rcases hl with h | h
    · exact Or.inl h
    · exact Or.inr (Or.inr (Or.inr h))
  all_goals simp [runCase, petActs]

/-- One step of `onParameterChange`, whatever the packet: `lastTalk` is kept
or becomes one of the stamp readings; no DANGER line is sent, or exactly one,
and one only when more than 10000 ms have passed since `lastTalk` at the
reading of the test, `lastTalk` then being the DANGER stamp or the DEAD stamp. -/
theorem step_lastTalk (sp : StatusProperty) (db : DB) (clock : Clock) (pkt : StatusPacket)
    (w : World) :
    ((onParameterChange sp db clock pkt w).1.pet.lastTalk = w.pet.lastTalk ∨
      (onParameterChange sp db clock pkt w).1.pet.lastTalk = some clock.dangerStamp ∨
      (onParameterChange sp db clock pkt w).1.pet.lastTalk = some clock.deadStamp ∨
      (onParameterChange sp db clock pkt w).1.pet.lastTalk = some clock.levelStamp) ∧
    (petActs PetMessage.PM_DANGER (onParameterChange sp db clock pkt w).2 = [] ∨
      (petActs PetMessage.PM_DANGER (onParameterChange sp db clock pkt w).2
          = [petLine db PetMessage.PM_DANGER w] ∧
        w.pet.lastTalk.getD 0 + 10000 < clock.test ∧
        ((onParameterChange sp db clock pkt w).1.pet.lastTalk = some clock.dangerStamp ∨
          (onParameterChange sp db clock pkt w).1.pet.lastTalk = some clock.deadStamp))) := by
  simp only [onParameterChange]
  split
  · exact runCase_lastTalk db clock pkt (resolveAmount pkt) w _
  · exact ⟨Or.inl rfl, Or.inl rfl⟩

/-- Every reading of a call lies between its earliest and its latest reading. -/
theorem Clock.bounds (c : Clock) :
    (c.earliest ≤ c.test ∧ c.earliest ≤ c.dangerStamp ∧ c.earliest ≤ c.deadStamp ∧
      c.earliest ≤ c.levelStamp) ∧
    (c.test ≤ c.latest ∧ c.dangerStamp ≤ c.latest ∧ c.deadStamp ≤ c.latest ∧
      c.levelStamp ≤ c.latest) := by
  unfold Clock.earliest Clock.latest
  omega

/-- After a step whose readings are all at least `L`, a `lastTalk` that was
at least `L` (0 when unset) still is. -/
theorem step_lastTalk_ge (sp : StatusProperty) (db : DB) (L : Int) (clock : Clock)
    (pkt : StatusPacket) (w : World) (hw : L ≤ w.pet.lastTalk.getD 0)
    (hc : L ≤ clock.earliest) :
    L ≤ (onParameterChange sp db clock pkt w).1.pet.lastTalk.getD 0 := by
  obtain ⟨hkeep, -⟩ := step_lastTalk sp db clock pkt w
  obtain ⟨⟨-, h1, h2, h3⟩, -⟩ := clock.bounds
  rcases hkeep with h | h | h | h <;> rw [h]
  · exact hw
  · exact le_trans hc h1
  · exact le_trans hc h2
  · exact le_trans hc h3

/-- Along a run, from a state whose `lastTalk` is at least `L` and over calls
whose readings are all at least `L`, the test reading of every DANGER
reaction is later than `L + 10000`. -/
theorem run_danger_after (sp : StatusProperty) (db : DB) (L : Int) :
    ∀ (evs : List (Clock × StatusPacket)) (w : World), L ≤ w.pet.lastTalk.getD 0 →
      (∀ ev ∈ evs, L ≤ ev.1.earliest) → ∀ a ∈ (run sp db w evs).2, L + 10000 < a.1 := by
  intro evs
  induction evs with
  | nil => intro w _ _ a ha; simp [run] at ha
  | cons ev evs ih =>
    intro w hw hev a ha
    obtain ⟨-, hfire⟩ := step_lastTalk sp db ev.1 ev.2 w
    have hw' := step_lastTalk_ge sp db L ev.1 ev.2 w hw (hev ev (List.mem_cons_self _ _))
    have htail := ih (onParameterChange sp db ev.1 ev.2 w).1 hw'
      (fun e he => hev e (List.mem_cons_of_mem _ he))
    simp only [run] at ha
    rcases List.mem_append.mp ha with hh | ht
    · obtain ⟨x, hx, rfl⟩ := List.mem_map.mp hh
      rcases hfire with hnil | ⟨-, hlt, -⟩
      · rw [hnil] at hx
        exact absurd hx (List.not_mem_nil _)
      · show L + 10000 < ev.1.test
        omega
    · exact htail a ht

/-- Along a run over calls whose readings are all at least `L`, a `lastTalk`
that is set and at least `L` stays set and at least `L`. -/
theorem run_lastTalk_ge (sp : StatusProperty) (db : DB) (L : Int) :
    ∀ (evs : List (Clock × StatusPacket)) (w : World),
      (∃ l, w.pet.lastTalk = some l ∧ L ≤ l) →
      (∀ ev ∈ evs, L ≤ ev.1.earliest) →
      ∃ l, (run sp db w evs).1.pet.lastTalk = some l ∧ L ≤ l := by
  intro evs
  induction evs with
  | nil => intro w hw _; simpa [run] using hw
  | cons ev evs ih =>
    intro w hw hev
    obtain ⟨hkeep, -⟩ := step_lastTalk sp db ev.1 ev.2 w
    obtain ⟨⟨-, h1, h2, h3⟩, -⟩ := ev.1.bounds
    have hc : L ≤ ev.1.earliest := hev ev (List.mem_cons_self _ _)
    have hw' : ∃ l, (onParameterChange sp db ev.1 ev.2 w).1.pet.lastTalk = some l ∧ L ≤ l := by
      rcases hkeep with h | h | h | h
      · rw [h]; exact hw
      · exact ⟨_, h, le_trans hc h1⟩
      · exact ⟨_, h, le_trans hc h2⟩
      · exact ⟨_, h, le_trans hc h3⟩
    simpa [run] using ih (onParameterChange sp db ev.1 ev.2 w).1 hw'
      (fun e he => hev e (List.mem_cons_of_mem _ he))

/-- C5. DANGER fires at most once per cooldown window. Over any run of status
events handled at non-decreasing clock readings (within a call the readings
are in program order, and no reading of a call is later than a reading of a
later call), from any state: every DANGER reaction sent is recorded with the
reading before its send and the reading after it; for any two of them, the
earlier one's reading after the send plus 10000 ms is less than the later
one's reading before the send, so the two sends are more than 10000 ms apart;
and after the run `lastTalk` is set and at least the reading after the send of
every DANGER reaction of the run. -/
theorem danger_cooldown (sp : StatusProperty) (db : DB) (evs : List (Clock × StatusPacket))
    (w : World) (ho : ∀ ev ∈ evs, ev.1.ordered)
    (hs : evs.Pairwise (fun a b => a.1.precedes b.1)) :
    (run sp db w evs).2.Pairwise (fun a b => a.2 + 10000 < b.1) ∧
    ∀ a ∈ (run sp db w evs).2,
      a.1 ≤ a.2 ∧ ∃ l, (run sp db w evs).1.pet.lastTalk = some l ∧ a.2 ≤ l := by
  induction evs generalizing w with
  | nil => simp [run]
  | cons ev evs ih =>
    rw [List.pairwise_cons] at hs
    obtain ⟨hhead, htail⟩ := hs
    have hord : ev.1.ordered := ho ev (List.mem_cons_self _ _)
    obtain ⟨-, hfire⟩ := step_lastTalk sp db ev.1 ev.2 w
    obtain ⟨ihp, ihl⟩ := ih (onParameterChange sp db ev.1 ev.2 w).1
      (fun e he => ho e (List.mem_cons_of_mem _ he)) htail
    have hlater : ∀ e ∈ evs, ev.1.dangerStamp ≤ e.1.earliest := by
      intro e he
      have h1 : ev.1.latest ≤ e.1.earliest := hhead e he
      exact le_trans ev.1.bounds.2.2.1 h1
    simp only [run]
    rcases hfire with hnil | ⟨hone, -, hstamp⟩
    · rw [hnil]
      exact ⟨by simpa using ihp, by simpa using ihl⟩
    · rw [hone]
      have hset : ∃ l, (onParameterChange sp db ev.1 ev.2 w).1.pet.lastTalk = some l ∧
          ev.1.dangerStamp ≤ l := by
        rcases hstamp with h | h
        · exact ⟨_, h, le_refl _⟩
        · exact ⟨_, h, hord.2⟩
      have hge : ev.1.dangerStamp
          ≤ (onParameterChange sp db ev.1 ev.2 w).1.pet.lastTalk.getD 0 := by
        obtain ⟨l, hl, hle⟩ := hset
        rw [hl]
        exact hle
      refine ⟨?_, ?_⟩
      · show List.Pairwise _ ((ev.1.test, ev.1.dangerStamp) :: _)
        refine List.pairwise_cons.mpr ⟨?_, ihp⟩
        intro b hb
        exact run_danger_after sp db ev.1.dangerStamp evs _ hge hlater b hb
      · intro a ha
        rcases List.mem_cons.mp ha with rfl | ht
        · exact ⟨hord.1, run_lastTalk_ge sp db ev.1.dangerStamp evs _ hset hlater⟩
        · exact ihl a ht

/-- C5, at the sample table: three qualifying HP updates with clocks starting
at 20000, 25000 and 31000 ms and advancing between readings; only the first
and the last send a DANGER line. -/
theorem danger_cooldown_witness :
    (run sampleStatusProperty sampleDB scenarioWorld
      [ (Clock.ticking 20000, { varID := some 5, count := some 10 }),
        (Clock.ticking 25000, { varID := some 5, count := some 9 }),
        (Clock.ticking 31000, { varID := some 5, count := some 8 }) ]).2
      = [(20000, 20001), (31000, 31001)] ∧
    (run sampleStatusProperty sampleDB scenarioWorld
      [ (Clock.ticking 20000, { varID := some 5, count := some 10 }),
        (Clock.ticking 25000, { varID := some 5, count := some 9 }),
        (Clock.ticking 31000, { varID := some 5, count := some 8 }) ]).2.Pairwise
        (fun a b => a.2 + 10000 < b.1) :=
  ⟨by decide,
   (danger_cooldown sampleStatusProperty sampleDB
      [ (Clock.ticking 20000, { varID := some 5, count := some 10 }),
        (Clock.ticking 25000, { varID := some 5, count := some 9 }),
        (Clock.ticking 31000, { varID := some 5, count := some 8 }) ] scenarioWorld
      (by decide) (by decide)).1⟩

/-! ## Party roster broadcast -/

/-- The party roster calls of `case StatusProperty.HP`. -/
theorem caseHP_party (db : DB) (clock : Clock) (amount : Int) (w : World) :
    partyBroadcasts (caseHP db clock amount w).2
      = (if w.hasParty = true ∧ w.life.hp_max > -1 then [(w.AID, amount, w.life.hp_max)]
         else []) := by
  have hsplit : ∀ a b c : List Effect,
      partyBroadcasts (Effect.lifeUpdate :: (a ++ b ++ c))
        = partyBroadcasts a ++ partyBroadcasts b ++ partyBroadcasts c := by
    intro a b c
    simp [partyBroadcasts, List.filterMap_append]
  rw [caseHP_eq]
  simp only [hsplit, (dangerCheck_frame db clock _).2.2, (diedCheck_frame db clock _).2.2,
    List.append_nil]
  unfold showLife
  by_cases h1 : w.life.hp_max > -1 <;> by_cases h2 : w.hasParty = true <;>
    simp [h1, h2, partyBroadcasts]

/-- The party roster calls of `case StatusProperty.MAXHP`. -/
theorem caseMAXHP_party (amount : Int) (w : World) :
    partyBroadcasts (caseMAXHP amount w).2
      = (if w.hasParty = true ∧ w.life.hp > -1 then [(w.AID, w.life.hp, amount)] else []) := by
  unfold caseMAXHP showLife
  by_cases h1 : w.life.hp > -1 <;> by_cases h2 : w.hasParty = true <;>
    simp [h1, h2, partyBroadcasts]

/-- C6, as stated, fails: in a party, with `hp_max` still the sentinel `-1`,
an HP update makes no party roster call. -/
theorem party_broadcast_counterexample :
    sampleWorld.hasParty = true ∧
    resolveType { varID := some 5, count := some 50 } = sampleStatusProperty.HP ∧
    (onParameterChange sampleStatusProperty sampleDB (Clock.ticking 1000)
      { varID := some 5, count := some 50 } sampleWorld).1.life.hp = 50 ∧
    partyBroadcasts (onParameterChange sampleStatusProperty sampleDB (Clock.ticking 1000)
      { varID := some 5, count := some 50 } sampleWorld).2 = [] := by
  decide

/-- C6, amended. In a party, an HP update makes one party roster call, with
the just-updated `hp` and `hp_max`, when `hp_max` is already known (above
`-1`), and a MAXHP update makes one when `hp` is already known; while the
other half of the pair is still the sentinel, or out of a party, no roster
call is made. -/
theorem party_broadcast_when_pair_known (sp : StatusProperty) (db : DB) (hsp : Distinct sp)
    (clock : Clock) (pkt : StatusPacket) (w : World) :
    (resolveType pkt = sp.HP →
      (onParameterChange sp db clock pkt w).1.life = { w.life with hp := resolveAmount pkt } ∧
      partyBroadcasts (onParameterChange sp db clock pkt w).2
        = (if w.hasParty = true ∧ w.life.hp_max > -1
           then [(w.AID, (onParameterChange sp db clock pkt w).1.life.hp,
                  (onParameterChange sp db clock pkt w).1.life.hp_max)]
           else [])) ∧
    (resolveType pkt = sp.MAXHP →
      (onParameterChange sp db clock pkt w).1.life = { w.life with hp_max := resolveAmount pkt } ∧
      partyBroadcasts (onParameterChange sp db clock pkt w).2
        = (if w.hasParty = true ∧ w.life.hp > -1
           then [(w.AID, (onParameterChange sp db clock pkt w).1.life.hp,
                  (onParameterChange sp db clock pkt w).1.life.hp_max)]
           else [])) := by
  constructor
  · intro hty
    rw [onParameterChange_HP hsp db clock hty w, caseHP_party,
      (caseHP_vital db clock (resolveAmount pkt) w).2]
    exact ⟨rfl, rfl⟩
  · intro hty
    rw [onParameterChange_MAXHP hsp db clock hty w, caseMAXHP_party,
      (caseMAXHP_vital (resolveAmount pkt) w).2]
    exact ⟨rfl, rfl⟩

/-- C6 amended, at the sample table: in a party with `hp = 45` and
`hp_max = 200`, HP = 50 broadcasts `(50, 200)` and MAXHP = 300 broadcasts
`(45, 300)`. -/
theorem party_broadcast_when_pair_known_witness :
    partyBroadcasts (onParameterChange sampleStatusProperty sampleDB (Clock.ticking 1000)
      { varID := some 5, count := some 50 } scenarioWorld).2 = [(2000001, 50, 200)] ∧
    partyBroadcasts (onParameterChange sampleStatusProperty sampleDB (Clock.ticking 1000)
      { varID := some 6, count := some 300 } scenarioWorld).2 = [(2000001, 45, 300)] :=
  ⟨((party_broadcast_when_pair_known sampleStatusProperty sampleDB (by decide) (Clock.ticking 1000)
      { varID := some 5, count := some 50 } scenarioWorld).1 (by decide)).2.trans (by decide),
   ((party_broadcast_when_pair_known sampleStatusProperty sampleDB (by decide) (Clock.ticking 1000)
      { varID := some 6, count := some 300 } scenarioWorld).2 (by decide)).2.trans (by decide)⟩

/-! ## Unrecognised codes -/

/-- C7. A status event whose resolved code labels no `case` clause, such as
the sentinel `-1` of an event without `varID`, `statusType` and `statusID`,
leaves the whole state unchanged and makes a single call, the diagnostic
`console.log` of the packet; the handler is a total function, it does not
raise. -/
theorem unknown_code_ignored (sp : StatusProperty) (db : DB) (clock : Clock) (pkt : StatusPacket)
    (w : World) (hty : resolveType pkt ∉ caseCodes sp) :
    onParameterChange sp db clock pkt w = (w, [Effect.consoleLog pkt]) := by
  have hnone : switchCase sp (resolveType pkt) = none := by
    unfold switchCase
    rw [List.lookup_eq_none_iff]
    intro p hp
    have hne : resolveType pkt ≠ p.1 := by
      intro heq
      exact hty (heq ▸ List.mem_map.mpr ⟨p, hp, rfl⟩)
    simpa using hne
  simp only [onParameterChange, hnone]

/-- C7, at the sample table: an event carrying only a `count`. -/
theorem unknown_code_ignored_witness :
    resolveType { count := some 7 } = -1 ∧
    onParameterChange sampleStatusProperty sampleDB (Clock.ticking 1000) { count := some 7 } scenarioWorld
      = (scenarioWorld, [Effect.consoleLog { count := some 7 }]) :=
  ⟨by decide,
   unknown_code_ignored sampleStatusProperty sampleDB (Clock.ticking 1000) { count := some 7 } scenarioWorld
     (by decide)⟩

/-! ## The HP scenario -/

/-- C8, as stated, fails: the event `{varID: HP, amount: -40}` on `hp = 45`,
`hp_max = 200` does not yield `hp = 5`; the handler assigns the amount. -/
theorem scenario_hp_counterexample :
    scenarioWorld.life.hp = 45 ∧ scenarioWorld.life.hp_max = 200 ∧
    (onParameterChange sampleStatusProperty sampleDB (Clock.ticking 20000)
      { varID := some sampleStatusProperty.HP, amount := some (-40) } scenarioWorld).1.life.hp
        = -40 ∧
    (onParameterChange sampleStatusProperty sampleDB (Clock.ticking 20000)
      { varID := some sampleStatusProperty.HP, amount := some (-40) } scenarioWorld).1.life.hp
        ≠ 5 := by
  decide

/-- C8, amended. The event `{varID: HP, amount: -40}` on a player with
`hp_max = 200` and `hp = 45` sets `hp` to the amount itself, `-40`, not to
the sum `45 + (-40)`; `-40` is at most 25% of 200, so the DANGER test on the
vitals holds for that update: the DANGER reaction is emitted exactly when the
pet conditions hold. -/
theorem scenario_hp_assigns (sp : StatusProperty) (db : DB) (hsp : Distinct sp) (clock : Clock)
    (w : World) (hhp : w.life.hp = 45) (hmax : w.life.hp_max = 200) :
    (onParameterChange sp db clock { varID := some sp.HP, amount := some (-40) } w).1.life.hp
      = -40 ∧
    (onParameterChange sp db clock { varID := some sp.HP, amount := some (-40) } w).1.life.hp
      ≠ w.life.hp + (-40) ∧
    (onParameterChange sp db clock { varID := some sp.HP, amount := some (-40) } w).1.life.hp_max
      = 200 ∧
    (((onParameterChange sp db clock
        { varID := some sp.HP, amount := some (-40) } w).1.life.hp : ℚ)
      ≤ 25 / 100 * ((onParameterChange sp db clock
        { varID := some sp.HP, amount := some (-40) } w).1.life.hp_max : ℚ)) ∧
    (petActs PetMessage.PM_DANGER
        (onParameterChange sp db clock { varID := some sp.HP, amount := some (-40) } w).2 ≠ [] ↔
      (w.pet.friendly > 900 ∧ clock.test - w.pet.lastTalk.getD 0 > 10000)) := by
  have hty : resolveType { varID := some sp.HP, amount := some (-40) } = sp.HP := by
    simp [resolveType]
  have ham : resolveAmount { varID := some sp.HP, amount := some (-40) } = -40 := by
    simp [resolveAmount]
  rw [onParameterChange_HP hsp db clock hty w, ham]
  have hlife := (caseHP_vital db clock (-40) w).2
  have h1 : (caseHP db clock (-40) w).1.life.hp = -40 := by rw [hlife]
  have h2 : (caseHP db clock (-40) w).1.life.hp_max = 200 := by rw [hlife]; exact hmax
  refine ⟨h1, ?_, h2, ?_, ?_⟩
  · rw [h1, hhp]
    decide
  · rw [h1, h2]
    norm_num
  · rw [(caseHP_pet db clock (-40) w).1, hmax]
    constructor
    · intro h
      split_ifs at h with hc
      · exact ⟨hc.2.1, by omega⟩
      · exact absurd rfl h
    · rintro ⟨hf, ht⟩
      rw [if_pos ⟨by decide, hf, by omega⟩]
      simp

/-- C8 amended, at the sample table and the scenario session, handled with a
clock that reads 20000 at the cooldown test. -/
theorem scenario_hp_assigns_witness :
    (onParameterChange sampleStatusProperty sampleDB (Clock.ticking 20000)
      { varID := some sampleStatusProperty.HP, amount := some (-40) } scenarioWorld).1.life.hp
        = -40 ∧
    petActs PetMessage.PM_DANGER (onParameterChange sampleStatusProperty sampleDB (Clock.ticking 20000)
      { varID := some sampleStatusProperty.HP, amount := some (-40) } scenarioWorld).2 ≠ [] :=
  ⟨(scenario_hp_assigns sampleStatusProperty sampleDB (by decide) (Clock.ticking 20000) scenarioWorld
      (by decide) (by decide)).1,
   (scenario_hp_assigns sampleStatusProperty sampleDB (by decide) (Clock.ticking 20000) scenarioWorld
      (by decide) (by decide)).2.2.2.2.mpr ⟨by decide, by decide⟩⟩

/-! ## Announce formatting -/

/-- Masking a channel in place and shifting it down is shifting down and
masking the low bits. -/
theorem and_shiftLeft_shiftRight (c m k : Nat) :
    (c &&& (m <<< k)) >>> k = (c >>> k) &&& m := by
  apply Nat.eq_of_testBit_eq
  intro i
  simp [Nat.testBit_shiftRight, Nat.testBit_and, Nat.testBit_shiftLeft]

/-- The colour string built by the handler is the one of the specification. -/
theorem rgbString_eq_specRgb (c : Nat) : rgbString c = specRgb c := by
  have hr : (c &&& 0x00ff0000) >>> 16 = (c >>> 16) &&& 0xFF :=
    and_shiftLeft_shiftRight c 0xFF 16
  have hg : (c &&& 0x0000ff00) >>> 8 = (c >>> 8) &&& 0xFF :=
    and_shiftLeft_shiftRight c 0xFF 8
  unfold rgbString specRgb
  rw [hr, hg]
  simp [String.intercalate, String.intercalate.go, String.append_assoc]

/-- A message matches `/^tag/` exactly when it is `tag` followed by some rest. -/
theorem matchStart_iff (tag msg : String) :
    matchStart tag msg = true ↔ ∃ rest : String, msg = tag ++ rest := by
  unfold matchStart
  rw [List.isPrefixOf_iff_prefix]
  constructor
  · rintro ⟨t, ht⟩
    refine ⟨⟨t⟩, ?_⟩
    apply String.ext
    simp [ht]
  · rintro ⟨rest, rfl⟩
    exact ⟨rest.data, by simp⟩

/-- Dropping the length of `tag` from `tag ++ rest` leaves `rest`. -/
theorem substr_append (tag rest : String) : substr (tag ++ rest) tag.data.length = rest := by
  unfold substr
  apply String.ext
  simp

/-- C9, as stated, fails: the packed colour `0` (black, within `0 <= c < 2^24`)
is not decoded to `rgb(0,0,0)`; the legacy prefix of the text decides instead. -/
theorem announce_packed_color_counterexample :
    (0 : Nat) < 2 ^ 24 ∧ specRgb 0 = "rgb(0,0,0)" ∧
    (onGlobalAnnounce { fontColor := some 0, msg := "bluehello" }).2
      = [ Effect.chatBoxAddText "hello" ChatBoxType.ANNOUNCE ChatBoxFilter.PUBLIC_CHAT
            (some "#00FFFF"),
          Effect.announceAppend,
          Effect.announceSet "hello" "#00FFFF" ] ∧
    (onGlobalAnnounce { fontColor := some 0, msg := "bluehello" }).2
      ≠ [ Effect.chatBoxAddText "bluehello" ChatBoxType.ANNOUNCE ChatBoxFilter.PUBLIC_CHAT
            (some (specRgb 0)),
          Effect.announceAppend,
          Effect.announceSet "bluehello" (specRgb 0) ] := by
  decide

/-- C9, amended. For every announce event whose packed 24-bit font colour `c`
is not zero (`0 < c < 2^24`), whatever the message text, the text is shown
unchanged in the colour `rgb(r,g,b)` with `r = (c >> 16) & 0xFF`,
`g = (c >> 8) & 0xFF`, `b = c & 0xFF`: the packed colour takes precedence over
any legacy text prefix. -/
theorem announce_packed_color (c : Nat) (msg : String) (hpos : 0 < c) (hlt : c < 2 ^ 24) :
    (onGlobalAnnounce { fontColor := some c, msg := msg }).2
      = [ Effect.chatBoxAddText msg ChatBoxType.ANNOUNCE ChatBoxFilter.PUBLIC_CHAT
            (some (specRgb c)),
          Effect.announceAppend,
          Effect.announceSet msg (specRgb c) ] ∧
    (onGlobalAnnounce { fontColor := some c, msg := msg }).1.msg = msg ∧
    (c >>> 16) &&& 0xFF < 256 ∧ (c >>> 8) &&& 0xFF < 256 ∧ c &&& 0xFF < 256 ∧
    c = 65536 * ((c >>> 16) &&& 0xFF) + 256 * ((c >>> 8) &&& 0xFF) + (c &&& 0xFF) := by
  have hne : c ≠ 0 := by omega
  have hmask : ∀ x : Nat, x &&& 0xFF = x % 256 := fun x => Nat.and_pow_two_sub_one_eq_mod x 8
  refine ⟨?_, ?_, ?_, ?_, ?_, ?_⟩
  · simp [onGlobalAnnounce, announceFormat, hne, rgbString_eq_specRgb]
  · simp [onGlobalAnnounce, announceFormat, hne]
  · rw [hmask]; omega
  · rw [hmask]; omega
  · rw [hmask]; omega
  · simp only [hmask, Nat.shiftRight_eq_div_pow]
    have h24 : c < 16777216 := by simpa using hlt
    omega

/-- C9 amended, at the packed colour `0x00FF00FF` with a `blue` prefix in the text. -/
theorem announce_packed_color_witness :
    specRgb 0x00FF00FF = "rgb(255,0,255)" ∧
    (onGlobalAnnounce { fontColor := some 0x00FF00FF, msg := "bluehello" }).2
      = [ Effect.chatBoxAddText "bluehello" ChatBoxType.ANNOUNCE ChatBoxFilter.PUBLIC_CHAT
            (some (specRgb 0x00FF00FF)),
          Effect.announceAppend,
          Effect.announceSet "bluehello" (specRgb 0x00FF00FF) ] :=
  ⟨by decide, (announce_packed_color 0x00FF00FF "bluehello" (by decide) (by decide)).1⟩

/-- C10. For every announce event without a packed font colour, the chat-log
append and the banner set receive the same text and colour: text `rest` in
colour `#00FFFF` when the message is `blue` followed by `rest`, text `rest` in
colour `#FFFF00` when it is `ssss` followed by `rest`, and otherwise the
message unchanged in the fallback colour `#FFFF00`. -/
theorem announce_legacy_tag (pkt : AnnouncePacket) (hfc : pkt.fontColor = none) :
    ∃ text color : String,
      (onGlobalAnnounce pkt).2
        = [ Effect.chatBoxAddText text ChatBoxType.ANNOUNCE ChatBoxFilter.PUBLIC_CHAT (some color),
            Effect.announceAppend,
            Effect.announceSet text color ] ∧
      (∀ rest : String, pkt.msg = "blue" ++ rest → text = rest ∧ color = "#00FFFF") ∧
      (∀ rest : String, pkt.msg = "ssss" ++ rest → text = rest ∧ color = "#FFFF00") ∧
      ((¬ ∃ rest : String, pkt.msg = "blue" ++ rest) →
        (¬ ∃ rest : String, pkt.msg = "ssss" ++ rest) →
          text = pkt.msg ∧ color = "#FFFF00") := by
  refine ⟨(announceFormat pkt).1, (announceFormat pkt).2, rfl, ?_, ?_, ?_⟩
  · intro rest hmsg
    have hb : matchStart "blue" pkt.msg = true := (matchStart_iff _ _).mpr ⟨rest, hmsg⟩
    have hd : substr pkt.msg 4 = rest := by
      rw [hmsg]
      exact substr_append "blue" rest
    simp [announceFormat, hfc, hb, hd]
  · intro rest hmsg
    have hb : matchStart "blue" pkt.msg = false := by
      rw [hmsg]
      simp [matchStart, List.isPrefixOf]
    have hs : matchStart "ssss" pkt.msg = true := (matchStart_iff _ _).mpr ⟨rest, hmsg⟩
    have hd : substr pkt.msg 4 = rest := by
      rw [hmsg]
      exact substr_append "ssss" rest
    simp [announceFormat, hfc, hb, hs, hd]
  · intro hnb hns
    have hb : matchStart "blue" pkt.msg = false := by
      rw [← Bool.not_eq_true, matchStart_iff]
      exact hnb
    have hs : matchStart "ssss" pkt.msg = false := by
      rw [← Bool.not_eq_true, matchStart_iff]
      exact hns
    simp [announceFormat, hfc, hb, hs]

/-- C10, at the message `bluehello` without a packed colour: `hello` in `#00FFFF`. -/
theorem announce_legacy_tag_witness :
    ∃ text color : String,
      (onGlobalAnnounce { msg := "bluehello" }).2
        = [ Effect.chatBoxAddText text ChatBoxType.ANNOUNCE ChatBoxFilter.PUBLIC_CHAT (some color),
            Effect.announceAppend,
            Effect.announceSet text color ] ∧ text = "hello" ∧ color = "#00FFFF" :=
  match announce_legacy_tag { msg := "bluehello" } rfl with
  | ⟨text, color, heff, hblue, _, _⟩ => ⟨text, color, heff, hblue "hello" (by decide)⟩

/-! ## Rank formatting -/

/-- A text without a dollar sign expands to itself. -/
theorem getSubstitution_plain (matched before after : List Char) :
    ∀ repl : List Char, '$' ∉ repl → getSubstitution matched before after repl = repl
  | [], _ => rfl
  | [_], _ => rfl
  | c :: d :: r, h => by
    have hc : c ≠ '$' := fun e => h (e ▸ List.mem_cons_self _ _)
    have ih := getSubstitution_plain matched before after (d :: r)
      (fun hm => h (List.mem_cons_of_mem _ hm))
    rw [getSubstitution]
    simp [hc, ih]

/-- The first occurrence of a pattern that follows a text free of the first
character of the pattern. -/
theorem splitFirst_append (p : Char) (ps post : List Char) :
    ∀ pre : List Char, p ∉ pre →
      splitFirst (p :: ps) (pre ++ (p :: ps) ++ post) = some (pre, post)
  | [], _ => by
    have hpre : (p :: ps).isPrefixOf (p :: (ps ++ post)) = true := by
      rw [List.isPrefixOf_iff_prefix]
      exact ⟨post, rfl⟩
    simp only [List.nil_append, List.cons_append, splitFirst, hpre, if_true]
    simp
  | c :: pre, h => by
    have hc : p ≠ c := fun e => h (e ▸ List.mem_cons_self _ _)
    have ih := splitFirst_append p ps post pre (fun hm => h (List.mem_cons_of_mem _ hm))
    have hno : (p :: ps).isPrefixOf (c :: (pre ++ (p :: ps) ++ post)) = false := by
      simp [List.isPrefixOf, hc]
    show splitFirst (p :: ps) (c :: (pre ++ (p :: ps) ++ post)) = some (c :: pre, post)
    rw [splitFirst, hno, ih]
    simp

/-- Replacing a pattern that follows a text free of its first character, by a
text without a dollar sign. -/
theorem stringReplace_append (pre pat repl post : String) (p : Char) (ps : List Char)
    (hpat : pat.data = p :: ps) (hpre : p ∉ pre.data) (hrepl : '$' ∉ repl.data) :
    stringReplace (pre ++ pat ++ post) pat repl = pre ++ repl ++ post := by
  unfold stringReplace
  have hs : splitFirst pat.data (pre ++ pat ++ post).data = some (pre.data, post.data) := by
    rw [hpat]
    simp only [String.data_append, hpat]
    exact splitFirst_append p ps post.data pre.data hpre
  rw [hs]
  simp only [getSubstitution_plain _ _ _ _ hrepl]
  apply String.ext
  simp

/-- The characters of the decimal digits are not `x`, when no digit character is. -/
theorem toDigitsCore_plain (x : Char) (hx : ∀ d, d < 10 → Nat.digitChar d ≠ x) :
    ∀ (fuel n : Nat) (acc : List Char), x ∉ acc → x ∉ Nat.toDigitsCore 10 fuel n acc
  | 0, _, acc, h => by simpa [Nat.toDigitsCore] using h
  | fuel + 1, n, acc, h => by
    have hacc : x ∉ Nat.digitChar (n % 10) :: acc := by
      intro hm
      rcases List.mem_cons.mp hm with e | e
      · exact hx _ (Nat.mod_lt _ (by decide)) e.symm
      · exact h e
    rw [Nat.toDigitsCore]
    split_ifs
    · exact hacc
    · exact toDigitsCore_plain x hx fuel (n / 10) _ hacc

/-- The decimal text of a natural number holds neither a dollar nor a percent sign. -/
theorem toString_nat_plain (n : Nat) :
    '$' ∉ (toString n).data ∧ '%' ∉ (toString n).data := by
  have e : (toString n).data = Nat.toDigitsCore 10 (n + 1) n [] := rfl
  rw [e]
  exact ⟨toDigitsCore_plain '$' (by decide) _ _ _ (by simp),
    toDigitsCore_plain '%' (by decide) _ _ _ (by simp)⟩

/-- The decimal text of an integer holds neither a dollar nor a percent sign. -/
theorem toString_int_plain (z : Int) :
    '$' ∉ (toString z).data ∧ '%' ∉ (toString z).data := by
  cases z with
  | ofNat m => exact toString_nat_plain m
  | negSucc m =>
    have e : (toString (Int.negSucc m)).data = '-' :: (toString (m + 1)).data := rfl
    rw [e]
    have h := toString_nat_plain (m + 1)
    constructor
    · intro hm
      rcases List.mem_cons.mp hm with e | e
      · exact absurd e (by decide)
      · exact h.1 e
    · intro hm
      rcases List.mem_cons.mp hm with e | e
      · exact absurd e (by decide)
      · exact h.2 e


/-- For a name without a dollar and without a percent sign, the line of loop
index `i` is the line of the specification for rank `i + 1`. -/
theorem rankLine_plain (getMessage : Nat → String) (pkt : RankPacket) (i : Nat)
    (hd : '$' ∉ (rankName pkt i).data) (hp : '%' ∉ (rankName pkt i).data) :
    rankLine getMessage pkt i
      = specRankLine (getMessage 2385) (i + 1) (rankName pkt i) (rankPoint pkt i) := by
  have hr := toString_nat_plain (i + 1)
  have hz := toString_int_plain (rankPoint pkt i)
  have e1 : "[%rank%] %name% : %point% " ++ getMessage 2385
      = "[" ++ "%rank%" ++ ("] %name% : %point% " ++ getMessage 2385) := by
    rw [← String.append_assoc]
    rfl
  have s1 := stringReplace_append "[" "%rank%" (toString (i + 1))
    ("] %name% : %point% " ++ getMessage 2385) '%' "rank%".data rfl (by decide) hr.1
  have e2 : "[" ++ toString (i + 1) ++ ("] %name% : %point% " ++ getMessage 2385)
      = ("[" ++ toString (i + 1) ++ "] ") ++ "%name%" ++ (" : %point% " ++ getMessage 2385) := by
    apply String.ext
    simp
  have s2 := stringReplace_append ("[" ++ toString (i + 1) ++ "] ") "%name%" (rankName pkt i)
    (" : %point% " ++ getMessage 2385) '%' "name%".data rfl
    (by simpa using hr.2) hd
  have e3 : ("[" ++ toString (i + 1) ++ "] ") ++ rankName pkt i
        ++ (" : %point% " ++ getMessage 2385)
      = ("[" ++ toString (i + 1) ++ "] " ++ rankName pkt i ++ " : ") ++ "%point%"
        ++ (" " ++ getMessage 2385) := by
    apply String.ext
    simp
  have s3 := stringReplace_append ("[" ++ toString (i + 1) ++ "] " ++ rankName pkt i ++ " : ")
    "%point%" (toString (rankPoint pkt i)) (" " ++ getMessage 2385) '%' "point%".data rfl
    (by simpa using ⟨hr.2, hp⟩) hz.1
  unfold rankLine specRankLine
  simp only []
  rw [e1, s1, e2, s2, e3, s3]
  apply String.ext
  simp

/-- Whatever the names, `onRank` makes eleven `ChatBox.addText` calls: the
header line, then the lines of the loop indices `0` to `9`. -/
theorem onRank_texts (getMessage : Nat → String) (pkt : RankPacket) :
    (onRank getMessage pkt).length = 11 ∧
    chatTexts (onRank getMessage pkt)
      = rankHeader getMessage pkt.kind :: (List.range 10).map (rankLine getMessage pkt) := by
  exact ⟨rfl, rfl⟩

/-- An entry the packet does not provide has the name `None` and `0` points. -/
theorem rank_absent (pkt : RankPacket) (i : Nat)
    (hn : ∀ names, pkt.Name = some names → names.length ≤ i)
    (hp : ∀ points, pkt.Point = some points → points.length ≤ i) :
    rankName pkt i = "None" ∧ rankPoint pkt i = 0 := by
  constructor
  · unfold rankName
    cases hN : pkt.Name with
    | none => rfl
    | some names => simp [List.getElem?_eq_none (hn names hN)]
  · unfold rankPoint
    cases hP : pkt.Point with
    | none => rfl
    | some points => simp [List.getElem?_eq_none (hp points hP)]

/-- When none of the ten names holds a dollar or a percent sign, the ten lines
after the header are the lines of the specification, ranks `1` to `10`. -/
theorem onRank_plain (getMessage : Nat → String) (pkt : RankPacket)
    (h : ∀ i, i < 10 → '$' ∉ (rankName pkt i).data ∧ '%' ∉ (rankName pkt i).data) :
    chatTexts (onRank getMessage pkt)
      = rankHeader getMessage pkt.kind ::
          (List.range 10).map fun i =>
            specRankLine (getMessage 2385) (i + 1) (rankName pkt i) (rankPoint pkt i) := by
  rw [(onRank_texts getMessage pkt).2]
  congr 1
  apply List.map_congr_left
  intro i hi
  have hlt : i < 10 := List.mem_range.mp hi
  exact rankLine_plain getMessage pkt i (h i hlt).1 (h i hlt).2

/-- C11, at a failing input. For the rank event with the names `%point%` and
`$&` and the points `5` and `3`, and `Points` as points label, `onRank` emits
the header and ten lines, entries 3 to 10 showing `None` and `0`, but the
first two lines are not the template instantiated with the name and the
points: the code emits `[1] 5 : %point% Points` and `[2] %name% : 3 Points`
where the claim has `[1] %point% : 5 Points` and `[2] $& : 3 Points`. -/
theorem onRank_name_with_placeholder :
    chatTexts (onRank sampleMessages
        { kind := RankKind.BLACKSMITH_RANK, Name := some ["%point%", "$&"],
          Point := some [5, 3] })
      = [ "=========== BlackSmith Rank ===========",
          "[1] 5 : %point% Points", "[2] %name% : 3 Points",
          "[3] None : 0 Points", "[4] None : 0 Points", "[5] None : 0 Points",
          "[6] None : 0 Points", "[7] None : 0 Points", "[8] None : 0 Points",
          "[9] None : 0 Points", "[10] None : 0 Points" ] ∧
    specRankLine (sampleMessages 2385) 1 "%point%" 5 = "[1] %point% : 5 Points" ∧
    specRankLine (sampleMessages 2385) 2 "$&" 3 = "[2] $& : 3 Points" ∧
    rankLine sampleMessages
        { kind := RankKind.BLACKSMITH_RANK, Name := some ["%point%", "$&"],
          Point := some [5, 3] } 0
      ≠ specRankLine (sampleMessages 2385) 1 "%point%" 5 ∧
    rankLine sampleMessages
        { kind := RankKind.BLACKSMITH_RANK, Name := some ["%point%", "$&"],
          Point := some [5, 3] } 1
      ≠ specRankLine (sampleMessages 2385) 2 "$&" 3 := by
  decide

/-! ## Stat keys of the two status handlers -/

/-- With an enumeration as code table, the code named like a shared attribute
selects the `case` clause of that name. -/
theorem switchCase_shared {sp : StatusProperty} (hsp : Distinct sp) (a : SharedStat) :
    switchCase sp (a.code sp) = some a.clause := by
  cases a <;>
    exact lookup_of_nodup_keys hsp (by simp [caseLabels, SharedStat.code, SharedStat.clause])

/-- The key under which `onStatusParameterChange` passes each shared attribute. -/
theorem blockKeys_eq (v : Int) (hv : v ≠ 0) (a : SharedStat) :
    blockKeys v a =
      [match a with
       | .STANDARD_STR => "str3" | .STANDARD_AGI => "agi3" | .STANDARD_VIT => "vit3"
       | .STANDARD_INT => "int3" | .STANDARD_DEX => "dex3" | .STANDARD_LUK => "luk3"
       | .ATTPOWER => "atak" | .REFININGPOWER => "atak2"
       | .MIN_MATTPOWER => "matak" | .MAX_MATTPOWER => "matak2"
       | .ITEMDEFPOWER => "def" | .PLUSDEFPOWER => "def2"
       | .MDEFPOWER => "mdef" | .PLUSMDEFPOWER => "mdef2"
       | .HITSUCCESSVALUE => "hit" | .AVOIDSUCCESSVALUE => "flee"
       | .PLUSAVOIDSUCCESSVALUE => "flee2" | .CRITICALSUCCESSVALUE => "critical"
       | .POINT => "statuspoint"] := by
  have h0 : ¬ (0 : Int) = v := fun e => hv e.symm
  cases a <;>
    simp [blockKeys, SharedStat.block, onStatusParameterChange, winStatsKeys, h0]

/-- The key under which `onParameterChange` passes each shared attribute. -/
theorem paramKeys_eq {sp : StatusProperty} (hsp : Distinct sp) (db : DB) (clock : Clock) (w : World)
    (v : Int) (a : SharedStat) :
    paramKeys sp db clock w v a =
      [match a with
       | .STANDARD_STR => "str3" | .STANDARD_AGI => "agi3" | .STANDARD_VIT => "vit3"
       | .STANDARD_INT => "int3" | .STANDARD_DEX => "dex3" | .STANDARD_LUK => "luk3"
       | .ATTPOWER => "atak" | .REFININGPOWER => "atak2"
       | .MIN_MATTPOWER => "matak2" | .MAX_MATTPOWER => "matak"
       | .ITEMDEFPOWER => "def" | .PLUSDEFPOWER => "def2"
       | .MDEFPOWER => "mdef" | .PLUSMDEFPOWER => "mdef2"
       | .HITSUCCESSVALUE => "hit" | .AVOIDSUCCESSVALUE => "flee"
       | .PLUSAVOIDSUCCESSVALUE => "flee2" | .CRITICALSUCCESSVALUE => "critical"
       | .POINT => "statuspoint"] := by
  have hty : resolveType { varID := some (a.code sp), count := some v } = a.code sp := by
    simp [resolveType]
  have ham : resolveAmount { varID := some (a.code sp), count := some v } = v := by
    simp [resolveAmount]
  simp only [paramKeys, onParameterChange, hty, ham, switchCase_shared hsp a]
  cases a <;> simp [SharedStat.clause, runCase, winStatsKeys]

/-- C12, at the failing inputs. For every code table that is an enumeration
and every value `v ≠ 0`: `onStatusParameterChange` passes the block field
`min_mattPower` under the key `matak` and `max_mattPower` under `matak2`,
while `onParameterChange` passes the code `MIN_MATTPOWER` under `matak2` and
`MAX_MATTPOWER` under `matak`; on every other attribute the two handlers
share, they use the same key. -/
theorem stat_keys_matk_swapped (sp : StatusProperty) (db : DB) (hsp : Distinct sp) (clock : Clock)
    (w : World) (v : Int) (hv : v ≠ 0) :
    blockKeys v SharedStat.MIN_MATTPOWER = ["matak"] ∧
    paramKeys sp db clock w v SharedStat.MIN_MATTPOWER = ["matak2"] ∧
    blockKeys v SharedStat.MAX_MATTPOWER = ["matak2"] ∧
    paramKeys sp db clock w v SharedStat.MAX_MATTPOWER = ["matak"] ∧
    ∀ a : SharedStat, a ≠ SharedStat.MIN_MATTPOWER → a ≠ SharedStat.MAX_MATTPOWER →
      blockKeys v a = paramKeys sp db clock w v a := by
  refine ⟨blockKeys_eq v hv _, paramKeys_eq hsp db clock w v _, blockKeys_eq v hv _,
    paramKeys_eq hsp db clock w v _, ?_⟩
  intro a h1 h2
  rw [blockKeys_eq v hv a, paramKeys_eq hsp db clock w v a]
  cases a <;> first | rfl | exact absurd rfl h1 | exact absurd rfl h2

/-- C12, at the sample table and the value `7`: the status block with
`min_mattPower = 7` updates `matak`, the status event `MIN_MATTPOWER = 7`
updates `matak2`. -/
theorem stat_keys_matk_swapped_witness :
    onStatusParameterChange { min_mattPower := 7 }
      = [ Effect.winStatsUpdate "str" (some 0), Effect.winStatsUpdate "agi" (some 0),
          Effect.winStatsUpdate "vit" (some 0), Effect.winStatsUpdate "int" (some 0),
          Effect.winStatsUpdate "dex" (some 0), Effect.winStatsUpdate "luk" (some 0),
          Effect.winStatsUpdate "str3" (some 0), Effect.winStatsUpdate "agi3" (some 0),
          Effect.winStatsUpdate "vit3" (some 0), Effect.winStatsUpdate "int3" (some 0),
          Effect.winStatsUpdate "dex3" (some 0), Effect.winStatsUpdate "luk3" (some 0),
          Effect.winStatsUpdateQuotient "aspd" 0 4,
          Effect.winStatsUpdate "atak" (some 0), Effect.winStatsUpdate "atak2" (some 0),
          Effect.winStatsUpdate "matak" (some 7), Effect.winStatsUpdate "matak2" (some 0),
          Effect.winStatsUpdate "flee" (some 0), Effect.winStatsUpdate "flee2" (some 0),
          Effect.winStatsUpdate "critical" (some 0), Effect.winStatsUpdate "hit" (some 0),
          Effect.winStatsUpdate "def" (some 0), Effect.winStatsUpdate "def2" (some 0),
          Effect.winStatsUpdate "mdef" (some 0), Effect.winStatsUpdate "mdef2" (some 0),
          Effect.winStatsUpdate "statuspoint" (some 0) ] ∧
    (onParameterChange sampleStatusProperty sampleDB (Clock.ticking 1000)
        { varID := some sampleStatusProperty.MIN_MATTPOWER, count := some 7 } scenarioWorld).2
      = [Effect.winStatsUpdate "matak2" (some 7)] ∧
    blockKeys 7 SharedStat.MIN_MATTPOWER = ["matak"] ∧
    paramKeys sampleStatusProperty sampleDB (Clock.ticking 1000) scenarioWorld 7 SharedStat.MIN_MATTPOWER
      = ["matak2"] :=
  ⟨by decide, by decide,
   (stat_keys_matk_swapped sampleStatusProperty sampleDB (by decide) (Clock.ticking 1000) scenarioWorld 7
      (by decide)).1,
   (stat_keys_matk_swapped sampleStatusProperty sampleDB (by decide) (Clock.ticking 1000) scenarioWorld 7
      (by decide)).2.1⟩

end MapEngine
